import Mathlib

/-!
# Verification of the RAG object lifecycle manager

A shallow embedding of `src/babylon/rag/lifecycle.py` (class `LifecycleManager`)
together with proofs about its behaviour.

Modelling conventions:
* A cached object is identified by its string id (`str(obj.id)` in the source);
  since the manager only ever reads/writes an object's `state` and
  `last_accessed` fields, those mutable per-object fields are tracked in
  id-keyed association lists inside the manager state (`obj_states`,
  `obj_last_accessed`).  An id absent from `obj_states` models an object whose
  `state` attribute is absent; `_validate_object` defaults it to `INACTIVE`,
  which we model by a lookup with default `INACTIVE`.
* Python `OrderedDict` containers are modelled as insertion-ordered lists of
  ids (`List String`); `d[k] = v` is `od_insert` (append when absent, keep
  position when present), `d.pop(k, None)` is `List.erase`.
* Python `dict` bookkeeping maps are insertion-ordered association lists with
  `dict_get` / `dict_set` / `dict_pop`.
* Wall-clock time (`time.time()`) is passed explicitly as a rational `now`
  parameter.  Python float arithmetic is modelled exactly over `ℚ`.  Because
  Batteries marks the field operations on `ℚ` `@[irreducible]` (blocking
  kernel evaluation by `decide`), the embedding uses the computable wrappers
  `rat_add`/`rat_sub`/`rat_mul`/`rat_inv` built on `mkRat`; each is proved
  equal to the corresponding field operation below.  `int()` applied to the
  nonnegative quantities appearing here is truncation `py_int`, proved equal
  to `⌊·⌋` on nonnegative arguments.
* Exceptions are modelled by `Except (RagError × LifecycleManager)`: a raise
  carries the manager state as it stands at the raise site (the Python object
  survives the exception), so atomicity claims are meaningful.
* The timing decorator `time_operation` (wall-clock duration samples and
  per-operation call counts) is not modelled: no claim mentions it.
* `"pytest" in sys.modules` is modelled by the boolean field `pytest_mode`.
* In `_find_demotion_candidate`, dividing by `priority + 1` with
  `priority = -1` raises `ZeroDivisionError` in Python while the `ℚ` model
  yields `0`; no claim involves a `-1` priority.
-/

/-- Addition on `ℚ`, computable by the kernel (see module docstring). -/
def rat_add (a b : ℚ) : ℚ := mkRat (a.num * b.den + b.num * a.den) (a.den * b.den)

/-- Subtraction on `ℚ`, computable by the kernel. -/
def rat_sub (a b : ℚ) : ℚ := mkRat (a.num * b.den - b.num * a.den) (a.den * b.den)

/-- Multiplication on `ℚ`, computable by the kernel. -/
def rat_mul (a b : ℚ) : ℚ := mkRat (a.num * b.num) (a.den * b.den)

/-- Reciprocal on `ℚ` (`rat_inv 0 = 0`), computable by the kernel. -/
def rat_inv (q : ℚ) : ℚ := mkRat (Int.sign q.num * q.den) q.num.natAbs

/-- `Nat → ℚ`, computable by the kernel. -/
def ratN (n : Nat) : ℚ := mkRat (Int.ofNat n) 1

/-- `Int → ℚ`, computable by the kernel. -/
def ratZ (n : Int) : ℚ := mkRat n 1

/-- Python `int()` on an exact rational: truncation toward zero. -/
def py_int (q : ℚ) : Int := Int.tdiv q.num (q.den : Int)

/-- Python `max` on two numbers: the second argument wins only when strictly
larger. -/
def py_fmax (a b : ℚ) : ℚ := if a < b then b else a

theorem rat_add_eq (a b : ℚ) : rat_add a b = a + b := by
  have ha : ((a.den : ℚ)) ≠ 0 := Nat.cast_ne_zero.mpr a.den_nz
  have hb : ((b.den : ℚ)) ≠ 0 := Nat.cast_ne_zero.mpr b.den_nz
  rw [rat_add, Rat.mkRat_eq_divInt, Rat.divInt_eq_div]
  conv_rhs => rw [← Rat.num_div_den a, ← Rat.num_div_den b]
  rw [div_add_div _ _ ha hb]
  push_cast
  ring_nf

theorem rat_sub_eq (a b : ℚ) : rat_sub a b = a - b := by
  have ha : ((a.den : ℚ)) ≠ 0 := Nat.cast_ne_zero.mpr a.den_nz
  have hb : ((b.den : ℚ)) ≠ 0 := Nat.cast_ne_zero.mpr b.den_nz
  rw [rat_sub, Rat.mkRat_eq_divInt, Rat.divInt_eq_div]
  conv_rhs => rw [← Rat.num_div_den a, ← Rat.num_div_den b]
  rw [div_sub_div _ _ ha hb]
  push_cast
  ring_nf

theorem rat_mul_eq (a b : ℚ) : rat_mul a b = a * b := by
  have ha : ((a.den : ℚ)) ≠ 0 := Nat.cast_ne_zero.mpr a.den_nz
  have hb : ((b.den : ℚ)) ≠ 0 := Nat.cast_ne_zero.mpr b.den_nz
  rw [rat_mul, Rat.mkRat_eq_divInt, Rat.divInt_eq_div]
  conv_rhs => rw [← Rat.num_div_den a, ← Rat.num_div_den b]
  rw [div_mul_div_comm]
  push_cast
  ring_nf

theorem ratN_eq (n : Nat) : ratN n = (n : ℚ) := by
  simp [ratN]

theorem ratZ_eq (n : Int) : ratZ n = (n : ℚ) := by
  simp [ratZ]

theorem py_fmax_eq (a b : ℚ) : py_fmax a b = max a b := by
  rw [py_fmax]
  rcases lt_or_le a b with h | h
  · rw [if_pos h, max_eq_right h.le]
  · rw [if_neg (not_lt.mpr h), max_eq_left h]

theorem rat_inv_eq (q : ℚ) : rat_inv q = q⁻¹ := by
  rcases eq_or_ne q 0 with h | h
  · subst h
    rw [inv_zero]
    decide
  · have hden : ((q.den : ℚ)) ≠ 0 := Nat.cast_ne_zero.mpr q.den_nz
    have hnum : q.num ≠ 0 := Rat.num_ne_zero.mpr h
    have habs : ((q.num.natAbs : ℚ)) ≠ 0 := by
      rw [Nat.cast_ne_zero, Int.natAbs_ne_zero]
      exact hnum
    have hqd : q * ((q.den : ℚ)) = ((q.num : ℚ)) := by
      nth_rewrite 1 [← Rat.num_div_den q]
      exact div_mul_cancel₀ _ hden
    apply eq_inv_of_mul_eq_one_left
    rw [rat_inv, Rat.mkRat_eq_divInt, Rat.divInt_eq_div, div_mul_eq_mul_div,
      div_eq_one_iff_eq (by exact_mod_cast habs)]
    rcases hnum.lt_or_lt with hlt | hgt
    · rw [Int.sign_eq_neg_one_iff_neg.mpr hlt]
      push_cast [Int.cast_natAbs]
      rw [abs_of_neg (show ((q.num : ℚ)) < 0 by exact_mod_cast hlt)]
      linear_combination -hqd
    · rw [Int.sign_eq_one_iff_pos.mpr hgt]
      push_cast [Int.cast_natAbs]
      rw [abs_of_pos (show (0 : ℚ) < ((q.num : ℚ)) by exact_mod_cast hgt)]
      linear_combination hqd

theorem py_int_eq_floor (q : ℚ) (h : 0 ≤ q) : py_int q = ⌊q⌋ := by
  have hnum : 0 ≤ q.num := Rat.num_nonneg.mpr h
  rw [py_int, Rat.floor_def, Int.tdiv_eq_ediv hnum (by positivity)]

/-- States an object can be in within the lifecycle system
(`ObjectState` in the source). -/
inductive ObjectState where
  | INACTIVE
  | BACKGROUND
  | ACTIVE
  | IMMEDIATE
  deriving Repr, DecidableEq

/-- The exception kinds raised by the lifecycle manager:
`InvalidObjectError`, `StateTransitionError`, `CorruptStateError` from
`babylon.rag.exceptions`, and `ValueError` for the pressure range check. -/
inductive RagError where
  | invalidObject
  | stateTransition
  | corruptState
  | valueError
  deriving Repr, DecidableEq

/-- `dict.get(k)`: first binding of `k` in an association list. -/
def dict_get {α : Type} : List (String × α) → String → Option α
  | [], _ => none
  | (k, v) :: rest, key => if k = key then some v else dict_get rest key

/-- `d[k] = v` on a `dict`: replace in place if the key is present,
append otherwise (insertion order preserved). -/
def dict_set {α : Type} : List (String × α) → String → α → List (String × α)
  | [], key, v => [(key, v)]
  | (k, w) :: rest, key, v =>
    if k = key then (key, v) :: rest else (k, w) :: dict_set rest key v

/-- `d.pop(k, None)` on a `dict`: drop the binding of `k` if present. -/
def dict_pop {α : Type} : List (String × α) → String → List (String × α)
  | [], _ => []
  | (k, w) :: rest, key => if k = key then rest else (k, w) :: dict_pop rest key

/-- `d[k] = obj` on an `OrderedDict` whose values are recoverable from the key:
keep the position if present, append otherwise. -/
def od_insert (l : List String) (k : String) : List String :=
  if k ∈ l then l else l ++ [k]

/-- The state of a `LifecycleManager` instance (its `__init__` fields, minus
the unmodelled timing instrumentation). -/
structure LifecycleManager where
  immediate_context : List String
  active_cache : List String
  background_context : List String
  priorities : List (String × Int)
  cache_hits : Nat
  cache_misses : Nat
  last_state_check : ℚ
  base_immediate_limit : Nat
  base_active_limit : Nat
  base_background_limit : Nat
  immediate_limit : Nat
  active_limit : Nat
  background_limit : Nat
  memory_pressure : ℚ
  memory_pressure_history : List ℚ
  peak_memory_pressure : ℚ
  last_accessed : List (String × ℚ)
  tier_transitions : Nat
  obj_states : List (String × ObjectState)
  obj_last_accessed : List (String × ℚ)
  pytest_mode : Bool
  deriving Repr, DecidableEq

/-- `LifecycleManager.__init__`. -/
def lifecycle_manager_init (pytest_mode : Bool) : LifecycleManager where
  immediate_context := []
  active_cache := []
  background_context := []
  priorities := []
  cache_hits := 0
  cache_misses := 0
  last_state_check := 0
  base_immediate_limit := 30
  base_active_limit := 200
  base_background_limit := 500
  immediate_limit := 30
  active_limit := 200
  background_limit := 500
  memory_pressure := 0
  memory_pressure_history := []
  peak_memory_pressure := 0
  last_accessed := []
  tier_transitions := 0
  obj_states := []
  obj_last_accessed := []
  pytest_mode := pytest_mode

/-- The `state` field of the object with the given id;
`_validate_object` defaults a missing attribute to `INACTIVE`. -/
def obj_state (s : LifecycleManager) (obj_id : String) : ObjectState :=
  (dict_get s.obj_states obj_id).getD ObjectState.INACTIVE

/-- The valid-transition table of `_validate_state_transition`:
is `target` a member of `valid_transitions[current]`? -/
def valid_transition : ObjectState → ObjectState → Bool
  | .INACTIVE, t => t = .IMMEDIATE || t = .BACKGROUND
  | .BACKGROUND, t => t = .ACTIVE || t = .IMMEDIATE || t = .INACTIVE
  | .ACTIVE, t => t = .IMMEDIATE || t = .BACKGROUND || t = .INACTIVE
  | .IMMEDIATE, t => t = .ACTIVE || t = .INACTIVE

/-- The duplicate ids computed by `_check_state_consistency`: the union of the
pairwise intersections of the three containers' key sets, as a list. -/
def duplicate_objects (s : LifecycleManager) : List String :=
  s.immediate_context.filter (fun x => decide (x ∈ s.active_cache)) ++
  s.immediate_context.filter (fun x => decide (x ∈ s.background_context)) ++
  s.active_cache.filter (fun x => decide (x ∈ s.background_context))

/-- `_check_state_consistency`: rate-limited to one check per 0.1 s outside
pytest mode; updates `last_state_check` (then resets it to 0 under pytest so
the next call checks again) and raises `CorruptStateError` when some id sits
in more than one container. -/
def check_state_consistency (s : LifecycleManager) (now : ℚ) :
    Except (RagError × LifecycleManager) LifecycleManager :=
  if ¬ s.pytest_mode ∧ rat_sub now s.last_state_check < mkRat 1 10 then .ok s
  else
    let s₁ := if s.pytest_mode then { s with last_state_check := 0 }
              else { s with last_state_check := now }
    if duplicate_objects s₁ = [] then .ok s₁
    else .error (.corruptState, s₁)

/-- The score `age * (1.0 / (priority + 1))` computed for one member inside
`_find_demotion_candidate` (priority and last-access default to 0). -/
def score_of (priorities : List (String × Int)) (last_accessed : List (String × ℚ))
    (now : ℚ) (obj_id : String) : ℚ :=
  let priority : Int := (dict_get priorities obj_id).getD 0
  let last_access : ℚ := (dict_get last_accessed obj_id).getD 0
  let age : ℚ := rat_sub now last_access
  rat_mul age (rat_inv (rat_add (ratZ priority) 1))

/-- Python's `max(candidates, key=...)` over a nonempty list keyed by the
score component: scan left to right, replacing the current best only on a
strictly larger key, so ties resolve to the earliest maximal element. -/
def py_max : (String × ℚ) → List (String × ℚ) → (String × ℚ)
  | best, [] => best
  | best, c :: rest => py_max (if best.2 < c.2 then c else best) rest

/-- The early-return test of `_find_demotion_candidate`: the Python condition
`age_threshold and age > age_threshold` is false when the threshold is `None`
or `0` (float truthiness). -/
def threshold_hit (last_accessed : List (String × ℚ)) (now : ℚ)
    (age_threshold : Option ℚ) (obj_id : String) : Bool :=
  match age_threshold with
  | some t =>
    decide (t ≠ 0) &&
    decide (rat_sub now ((dict_get last_accessed obj_id).getD 0) > t)
  | none => false

/-- `_find_demotion_candidate(context, age_threshold)`.  The source's single
loop (early return on the threshold test, otherwise accumulate a score per
member) is expressed as a `find?` for the first early return followed by
scoring every member; scoring is pure, so the two forms agree. -/
def find_demotion_candidate (priorities : List (String × Int))
    (last_accessed : List (String × ℚ)) (now : ℚ)
    (context : List String) (age_threshold : Option ℚ) : Option String :=
  match context.find? (threshold_hit last_accessed now age_threshold) with
  | some obj_id => some obj_id
  | none =>
    match context.map
        (fun obj_id => (obj_id, score_of priorities last_accessed now obj_id)) with
    | [] => context.head?
    | c :: rest => some (py_max c rest).1

example : find_demotion_candidate [] [] 100 [] none = none := by decide

example :
    find_demotion_candidate [("a", 0), ("b", 5)] [("a", 40), ("b", 40)] 100
      ["b", "a"] none = some "a" := by decide

example :
    find_demotion_candidate [("a", 0), ("b", 5)] [("a", 100), ("b", 100)] 100
      ["b", "a"] none = some "b" := by decide

/-- One demotion step `immediate → active` inside `_rebalance_all_tiers`:
pop the candidate, set its state to `ACTIVE`, insert into the active cache,
count the transition. -/
def demote_immediate (s : LifecycleManager) (obj_id : String) : LifecycleManager :=
  { s with
    immediate_context := s.immediate_context.erase obj_id,
    obj_states := dict_set s.obj_states obj_id .ACTIVE,
    active_cache := od_insert s.active_cache obj_id,
    tier_transitions := s.tier_transitions + 1 }

/-- One demotion step `active → background` inside `_rebalance_all_tiers`. -/
def demote_active (s : LifecycleManager) (obj_id : String) : LifecycleManager :=
  { s with
    active_cache := s.active_cache.erase obj_id,
    obj_states := dict_set s.obj_states obj_id .BACKGROUND,
    background_context := od_insert s.background_context obj_id,
    tier_transitions := s.tier_transitions + 1 }

/-- One eviction step `background → inactive` inside `_rebalance_all_tiers`. -/
def demote_background (s : LifecycleManager) (obj_id : String) : LifecycleManager :=
  { s with
    background_context := s.background_context.erase obj_id,
    obj_states := dict_set s.obj_states obj_id .INACTIVE,
    tier_transitions := s.tier_transitions + 1 }

/-- The `while len(self._immediate_context) > self._immediate_limit` loop of
`_rebalance_all_tiers`.  The loop is expressed with explicit fuel; each
iteration strictly shrinks the container, so fuel equal to the container
length at entry (as passed by `rebalance_all_tiers`) always suffices, which
`rebalance_immediate_loop_bound` below proves. -/
def rebalance_immediate_loop (now : ℚ) : Nat → LifecycleManager → LifecycleManager
  | 0, s => s
  | fuel + 1, s =>
    if s.immediate_context.length > s.immediate_limit then
      match find_demotion_candidate s.priorities s.last_accessed now
          s.immediate_context none with
      | some obj_id => rebalance_immediate_loop now fuel (demote_immediate s obj_id)
      | none => s
    else s

/-- The `while len(self._active_cache) > self._active_limit` loop of
`_rebalance_all_tiers`, with fuel as in `rebalance_immediate_loop`. -/
def rebalance_active_loop (now : ℚ) : Nat → LifecycleManager → LifecycleManager
  | 0, s => s
  | fuel + 1, s =>
    if s.active_cache.length > s.active_limit then
      match find_demotion_candidate s.priorities s.last_accessed now
          s.active_cache none with
      | some obj_id => rebalance_active_loop now fuel (demote_active s obj_id)
      | none => s
    else s

/-- The `while len(self._background_context) > self._background_limit` loop of
`_rebalance_all_tiers`, with fuel as in `rebalance_immediate_loop`. -/
def rebalance_background_loop (now : ℚ) : Nat → LifecycleManager → LifecycleManager
  | 0, s => s
  | fuel + 1, s =>
    if s.background_context.length > s.background_limit then
      match find_demotion_candidate s.priorities s.last_accessed now
          s.background_context none with
      | some obj_id => rebalance_background_loop now fuel (demote_background s obj_id)
      | none => s
    else s

/-- The body of the "move old objects from active to background" loop of
`_rebalance_all_tiers`, for one id of the iterated snapshot.  The comparison
`current_time - last_access > old_threshold` with
`old_threshold = current_time - 300` is kept exactly as in the source. -/
def stale_step (now : ℚ) (s : LifecycleManager) (obj_id : String) : LifecycleManager :=
  let last_access := (dict_get s.last_accessed obj_id).getD 0
  if rat_sub now last_access > rat_sub now 300 then
    { s with
      active_cache := s.active_cache.erase obj_id,
      background_context := od_insert s.background_context obj_id,
      obj_states := dict_set s.obj_states obj_id .BACKGROUND,
      tier_transitions := s.tier_transitions + 1 }
  else s

/-- The `for obj_id in list(self._active_cache.keys())` staleness loop of
`_rebalance_all_tiers`: a fold of `stale_step` over the snapshot of the
active-cache keys taken when the loop starts. -/
def stale_sweep (now : ℚ) (s : LifecycleManager) : LifecycleManager :=
  s.active_cache.foldl (stale_step now) s

/-- `_rebalance_all_tiers`: drain immediate, drain active, demote stale active
members, drain background — in source order. -/
def rebalance_all_tiers (s : LifecycleManager) (now : ℚ) : LifecycleManager :=
  let s₁ := rebalance_immediate_loop now s.immediate_context.length s
  let s₂ := rebalance_active_loop now s₁.active_cache.length s₁
  let s₃ := stale_sweep now s₂
  rebalance_background_loop now s₃.background_context.length s₃

/-- `deactivate(obj)`: reject an already-inactive object, check consistency,
count a transition if the object is in some tier, strip it from all three
containers, set its state to `INACTIVE` and clear priority/access bookkeeping. -/
def deactivate (s : LifecycleManager) (obj_id : String) (now : ℚ) :
    Except (RagError × LifecycleManager) LifecycleManager :=
  if obj_state s obj_id = .INACTIVE then .error (.stateTransition, s)
  else
    match check_state_consistency s now with
    | .error e => .error e
    | .ok s =>
      let s :=
        if obj_id ∈ s.immediate_context ∨ obj_id ∈ s.active_cache ∨
            obj_id ∈ s.background_context then
          { s with tier_transitions := s.tier_transitions + 1 }
        else s
      .ok { s with
        immediate_context := s.immediate_context.erase obj_id,
        active_cache := s.active_cache.erase obj_id,
        background_context := s.background_context.erase obj_id,
        obj_states := dict_set s.obj_states obj_id .INACTIVE,
        priorities := dict_pop s.priorities obj_id,
        last_accessed := dict_pop s.last_accessed obj_id }

/-- `mark_inactive(obj)`: check consistency, then demote one level
(immediate → active or active → background, validating first), reject a
background-resident object, and fall through silently otherwise. -/
def mark_inactive (s : LifecycleManager) (obj_id : String) (now : ℚ) :
    Except (RagError × LifecycleManager) LifecycleManager :=
  match check_state_consistency s now with
  | .error e => .error e
  | .ok s =>
    if obj_id ∈ s.immediate_context then
      if valid_transition (obj_state s obj_id) .ACTIVE then
        .ok { s with
          immediate_context := s.immediate_context.erase obj_id,
          active_cache := od_insert s.active_cache obj_id,
          obj_states := dict_set s.obj_states obj_id .ACTIVE,
          tier_transitions := s.tier_transitions + 1,
          last_accessed := dict_set s.last_accessed obj_id now }
      else .error (.stateTransition, s)
    else if obj_id ∈ s.active_cache then
      if valid_transition (obj_state s obj_id) .BACKGROUND then
        .ok { s with
          active_cache := s.active_cache.erase obj_id,
          background_context := od_insert s.background_context obj_id,
          obj_states := dict_set s.obj_states obj_id .BACKGROUND,
          tier_transitions := s.tier_transitions + 1,
          last_accessed := dict_set s.last_accessed obj_id now }
      else .error (.stateTransition, s)
    else if obj_id ∈ s.background_context then
      .error (.stateTransition, s)
    else .ok s

/-- `activate(obj, priority=0)`: no-op if already in immediate, validate the
transition to `IMMEDIATE`, record priority and access times, strip from the
lower tiers, insert into immediate, and rebalance when over limit. -/
def activate (s : LifecycleManager) (obj_id : String) (priority : Int) (now : ℚ) :
    Except (RagError × LifecycleManager) LifecycleManager :=
  if obj_id ∈ s.immediate_context then .ok s
  else if ¬ valid_transition (obj_state s obj_id) .IMMEDIATE then
    .error (.stateTransition, s)
  else
    let s := { s with
      priorities := dict_set s.priorities obj_id priority,
      last_accessed := dict_set s.last_accessed obj_id now,
      obj_last_accessed := dict_set s.obj_last_accessed obj_id now,
      active_cache := s.active_cache.erase obj_id,
      background_context := s.background_context.erase obj_id }
    let s := { s with
      obj_states := dict_set s.obj_states obj_id .IMMEDIATE,
      immediate_context := od_insert s.immediate_context obj_id,
      tier_transitions := s.tier_transitions + 1 }
    if s.immediate_context.length > s.immediate_limit then
      .ok (rebalance_all_tiers s now)
    else .ok s

/-- `add_to_background(obj)`: validate the transition to `BACKGROUND`, strip
from immediate/active, stamp access times, insert into background. -/
def add_to_background (s : LifecycleManager) (obj_id : String) (now : ℚ) :
    Except (RagError × LifecycleManager) LifecycleManager :=
  if ¬ valid_transition (obj_state s obj_id) .BACKGROUND then
    .error (.stateTransition, s)
  else
    .ok { s with
      immediate_context := s.immediate_context.erase obj_id,
      active_cache := s.active_cache.erase obj_id,
      last_accessed := dict_set s.last_accessed obj_id now,
      obj_last_accessed := dict_set s.obj_last_accessed obj_id now,
      obj_states := dict_set s.obj_states obj_id .BACKGROUND,
      background_context := od_insert s.background_context obj_id,
      tier_transitions := s.tier_transitions + 1 }

/-- `get_object(obj_id)`: search immediate, then active, then background.
An immediate hit refreshes access times; an active (resp. background) hit
promotes one tier up only when the tier above is strictly under its limit;
a miss counts a cache miss and returns `none`. -/
def get_object (s : LifecycleManager) (obj_id : String) (now : ℚ) :
    Option String × LifecycleManager :=
  if obj_id ∈ s.immediate_context then
    (some obj_id, { s with
      cache_hits := s.cache_hits + 1,
      obj_last_accessed := dict_set s.obj_last_accessed obj_id now,
      last_accessed := dict_set s.last_accessed obj_id now })
  else if obj_id ∈ s.active_cache then
    let s := { s with cache_hits := s.cache_hits + 1 }
    if s.immediate_context.length < s.immediate_limit then
      (some obj_id, { s with
        active_cache := s.active_cache.erase obj_id,
        obj_states := dict_set s.obj_states obj_id .IMMEDIATE,
        immediate_context := od_insert s.immediate_context obj_id,
        tier_transitions := s.tier_transitions + 1 })
    else (some obj_id, s)
  else if obj_id ∈ s.background_context then
    let s := { s with cache_hits := s.cache_hits + 1 }
    if s.active_cache.length < s.active_limit then
      (some obj_id, { s with
        background_context := s.background_context.erase obj_id,
        obj_states := dict_set s.obj_states obj_id .ACTIVE,
        active_cache := od_insert s.active_cache obj_id,
        tier_transitions := s.tier_transitions + 1 })
    else (some obj_id, s)
  else (none, { s with cache_misses := s.cache_misses + 1 })

/-- `set_memory_pressure(pressure)`: range-check, record history and peak,
recompute the three limits by pressure regime (Python `max(floor, int(...))`
on ints is `Nat.max floor (py_int ...).toNat`: all factors here are positive,
and a negative `int()` result would lose to the positive floor either way),
then force a rebalance. -/
def set_memory_pressure (s : LifecycleManager) (pressure : ℚ) (now : ℚ) :
    Except (RagError × LifecycleManager) LifecycleManager :=
  if ¬ (0 ≤ pressure ∧ pressure ≤ 1) then .error (.valueError, s)
  else
    let s := { s with
      memory_pressure := pressure,
      memory_pressure_history := s.memory_pressure_history ++ [pressure],
      peak_memory_pressure := py_fmax s.peak_memory_pressure pressure }
    let s :=
      if pressure ≥ mkRat 9 10 then
        let pressure_factor := py_fmax (mkRat 1 10) (rat_sub 1 pressure)
        { s with
          immediate_limit :=
            Nat.max 4 (py_int (rat_mul (ratN s.base_immediate_limit) pressure_factor)).toNat,
          active_limit :=
            Nat.max 20 (py_int (rat_mul (ratN s.base_active_limit) pressure_factor)).toNat,
          background_limit :=
            Nat.max 40 (py_int (rat_mul (ratN s.base_background_limit) pressure_factor)).toNat }
      else if pressure ≥ mkRat 4 5 then
        let pressure_factor := py_fmax (mkRat 3 20) (rat_sub 1 pressure)
        { s with
          immediate_limit :=
            Nat.max 5 (py_int (rat_mul (ratN s.base_immediate_limit) pressure_factor)).toNat,
          active_limit :=
            Nat.max 25 (py_int (rat_mul (ratN s.base_active_limit) pressure_factor)).toNat,
          background_limit :=
            Nat.max 50 (py_int (rat_mul (ratN s.base_background_limit) pressure_factor)).toNat }
      else
        let pressure_factor := rat_sub 1 (rat_mul pressure (mkRat 3 20))
        let recovery_boost := py_fmax 0 (rat_sub (mkRat 6 5) pressure)
        let combined := rat_add pressure_factor recovery_boost
        { s with
          immediate_limit :=
            Nat.max 20 (py_int (rat_mul (ratN s.base_immediate_limit) combined)).toNat,
          active_limit :=
            Nat.max 60 (py_int (rat_mul (ratN s.base_active_limit) combined)).toNat,
          background_limit :=
            Nat.max 120 (py_int (rat_mul (ratN s.base_background_limit) combined)).toNat }
    .ok (rebalance_all_tiers s now)

/-- Extract the manager state from an operation result: the Python manager
object survives whether the call returned or raised. -/
def result_state : Except (RagError × LifecycleManager) LifecycleManager → LifecycleManager
  | .ok s => s
  | .error (_, s) => s

example :
    (result_state (set_memory_pressure (lifecycle_manager_init false) (mkRat 19 20)
      1000)).background_limit = 50 := by decide

example :
    (result_state (set_memory_pressure (lifecycle_manager_init false) (mkRat 19 20)
      1000)).immediate_limit = 4 := by decide

/-- The public calls a client can make on a manager, with the wall-clock
instant of the call. -/
inductive Op where
  | activate_op (obj_id : String) (priority : Int) (now : ℚ)
  | mark_inactive_op (obj_id : String) (now : ℚ)
  | deactivate_op (obj_id : String) (now : ℚ)
  | add_to_background_op (obj_id : String) (now : ℚ)
  | get_object_op (obj_id : String) (now : ℚ)
  | set_memory_pressure_op (pressure : ℚ) (now : ℚ)
  | rebalance_op (now : ℚ)

/-- Pair the surviving manager state with the raised error, if any. -/
def apply_result :
    Except (RagError × LifecycleManager) LifecycleManager →
      LifecycleManager × Option RagError
  | .ok s => (s, none)
  | .error (e, s) => (s, some e)

/-- Execute one call: the manager state after the call (the Python object
survives a raise) together with the error it raised, if any. -/
def lifecycle_step (s : LifecycleManager) : Op → LifecycleManager × Option RagError
  | .activate_op obj_id priority now => apply_result (activate s obj_id priority now)
  | .mark_inactive_op obj_id now => apply_result (mark_inactive s obj_id now)
  | .deactivate_op obj_id now => apply_result (deactivate s obj_id now)
  | .add_to_background_op obj_id now => apply_result (add_to_background s obj_id now)
  | .get_object_op obj_id now => ((get_object s obj_id now).2, none)
  | .set_memory_pressure_op pressure now =>
      apply_result (set_memory_pressure s pressure now)
  | .rebalance_op now => (rebalance_all_tiers s now, none)

/-- Run a call sequence from a starting state. -/
def run_ops (s : LifecycleManager) (ops : List Op) : LifecycleManager :=
  ops.foldl (fun s op => (lifecycle_step s op).1) s

/-- Mutual exclusivity of three key lists: no duplicates inside any list and
no key shared between two lists. -/
def disjoint3 (a b c : List String) : Prop :=
  a.Nodup ∧ b.Nodup ∧ c.Nodup ∧
  (∀ x ∈ a, x ∉ b ∧ x ∉ c) ∧ ∀ x ∈ b, x ∉ c

/-- Invariant (I1): every id is held by at most one of the three tier
containers (and each container holds it at most once). -/
def tiers_wf (s : LifecycleManager) : Prop :=
  disjoint3 s.immediate_context s.active_cache s.background_context

instance (a b c : List String) : Decidable (disjoint3 a b c) := by
  unfold disjoint3
  infer_instance

instance (s : LifecycleManager) : Decidable (tiers_wf s) := by
  unfold tiers_wf
  infer_instance

theorem mem_od_insert {l : List String} {a x : String} :
    x ∈ od_insert l a ↔ x ∈ l ∨ x = a := by
  unfold od_insert
  split
  · rename_i h
    constructor
    · exact fun hx => Or.inl hx
    · rintro (hx | rfl)
      · exact hx
      · exact h
  · simp [List.mem_append]

theorem od_insert_nodup {l : List String} {a : String} (h : l.Nodup) :
    (od_insert l a).Nodup := by
  unfold od_insert
  split
  · exact h
  · rename_i ha
    rw [List.nodup_append]
    exact ⟨h, List.nodup_singleton a, fun x hx hx' => ha (by
      rw [List.mem_singleton] at hx'
      exact hx' ▸ hx)⟩

theorem disjoint3_promote_top {a b c : List String} (k : String)
    (h : disjoint3 a b c) : disjoint3 (od_insert a k) (b.erase k) (c.erase k) := by
  obtain ⟨ha, hb, hc, hab, hbc⟩ := h
  refine ⟨od_insert_nodup ha, hb.erase k, hc.erase k, ?_, ?_⟩
  · intro x hx
    rw [mem_od_insert] at hx
    rcases hx with hxa | rfl
    · exact ⟨fun hx' => (hab x hxa).1 (List.mem_of_mem_erase hx'),
        fun hx' => (hab x hxa).2 (List.mem_of_mem_erase hx')⟩
    · exact ⟨fun hx' => (hb.mem_erase_iff.mp hx').1 rfl,
        fun hx' => (hc.mem_erase_iff.mp hx').1 rfl⟩
  · intro x hx hx'
    exact hbc x (List.mem_of_mem_erase hx) (List.mem_of_mem_erase hx')

theorem disjoint3_drop {a b c : List String} (k : String)
    (h : disjoint3 a b c) : disjoint3 (a.erase k) (b.erase k) (c.erase k) := by
  obtain ⟨ha, hb, hc, hab, hbc⟩ := h
  refine ⟨ha.erase k, hb.erase k, hc.erase k, ?_, ?_⟩
  · intro x hx
    have hxa := List.mem_of_mem_erase hx
    exact ⟨fun hx' => (hab x hxa).1 (List.mem_of_mem_erase hx'),
      fun hx' => (hab x hxa).2 (List.mem_of_mem_erase hx')⟩
  · intro x hx hx'
    exact hbc x (List.mem_of_mem_erase hx) (List.mem_of_mem_erase hx')

theorem disjoint3_to_bottom {a b c : List String} {k : String}
    (h : disjoint3 a b c) : disjoint3 (a.erase k) (b.erase k) (od_insert c k) := by
  obtain ⟨ha, hb, hc, hab, hbc⟩ := h
  refine ⟨ha.erase k, hb.erase k, od_insert_nodup hc, ?_, ?_⟩
  · intro x hx
    have hxa := List.mem_of_mem_erase hx
    have hxk : x ≠ k := (ha.mem_erase_iff.mp hx).1
    refine ⟨fun hx' => (hab x hxa).1 (List.mem_of_mem_erase hx'), ?_⟩
    rw [mem_od_insert]
    rintro (hxc | rfl)
    · exact (hab x hxa).2 hxc
    · exact hxk rfl
  · intro x hx
    have hxb := List.mem_of_mem_erase hx
    have hxk : x ≠ k := (hb.mem_erase_iff.mp hx).1
    rw [mem_od_insert]
    rintro (hxc | rfl)
    · exact hbc x hxb hxc
    · exact hxk rfl

theorem disjoint3_shift1 {a b c : List String} {k : String}
    (h : disjoint3 a b c) (hk : k ∈ a) :
    disjoint3 (a.erase k) (od_insert b k) c := by
  obtain ⟨ha, hb, hc, hab, hbc⟩ := h
  refine ⟨ha.erase k, od_insert_nodup hb, hc, ?_, ?_⟩
  · intro x hx
    have hxa := List.mem_of_mem_erase hx
    have hxk : x ≠ k := (ha.mem_erase_iff.mp hx).1
    refine ⟨?_, (hab x hxa).2⟩
    rw [mem_od_insert]
    rintro (hxb | rfl)
    · exact (hab x hxa).1 hxb
    · exact hxk rfl
  · intro x hx
    rw [mem_od_insert] at hx
    rcases hx with hxb | rfl
    · exact hbc x hxb
    · exact (hab x hk).2

theorem disjoint3_shift2 {a b c : List String} {k : String}
    (h : disjoint3 a b c) (hk : k ∈ b) :
    disjoint3 a (b.erase k) (od_insert c k) := by
  obtain ⟨ha, hb, hc, hab, hbc⟩ := h
  refine ⟨ha, hb.erase k, od_insert_nodup hc, ?_, ?_⟩
  · intro x hx
    refine ⟨fun hx' => (hab x hx).1 (List.mem_of_mem_erase hx'), ?_⟩
    rw [mem_od_insert]
    rintro (hxc | rfl)
    · exact (hab x hx).2 hxc
    · exact (hab x hx).1 hk
  · intro x hx
    have hxb := List.mem_of_mem_erase hx
    have hxk : x ≠ k := (hb.mem_erase_iff.mp hx).1
    rw [mem_od_insert]
    rintro (hxc | rfl)
    · exact hbc x hxb hxc
    · exact hxk rfl

theorem disjoint3_promote2 {a b c : List String} {k : String}
    (h : disjoint3 a b c) (hk : k ∈ b) :
    disjoint3 (od_insert a k) (b.erase k) c := by
  obtain ⟨ha, hb, hc, hab, hbc⟩ := h
  refine ⟨od_insert_nodup ha, hb.erase k, hc, ?_, ?_⟩
  · intro x hx
    rw [mem_od_insert] at hx
    rcases hx with hxa | rfl
    · exact ⟨fun hx' => (hab x hxa).1 (List.mem_of_mem_erase hx'), (hab x hxa).2⟩
    · exact ⟨fun hx' => (hb.mem_erase_iff.mp hx').1 rfl, hbc x hk⟩
  · intro x hx
    exact hbc x (List.mem_of_mem_erase hx)

theorem disjoint3_promote3 {a b c : List String} {k : String}
    (h : disjoint3 a b c) (hk : k ∈ c) :
    disjoint3 a (od_insert b k) (c.erase k) := by
  obtain ⟨ha, hb, hc, hab, hbc⟩ := h
  refine ⟨ha, od_insert_nodup hb, hc.erase k, ?_, ?_⟩
  · intro x hx
    constructor
    · rw [mem_od_insert]
      rintro (hxb | rfl)
      · exact (hab x hx).1 hxb
      · exact (hab x hx).2 hk
    · exact fun hx' => (hab x hx).2 (List.mem_of_mem_erase hx')
  · intro x hx
    rw [mem_od_insert] at hx
    rcases hx with hxb | rfl
    · exact fun hx' => hbc x hxb (List.mem_of_mem_erase hx')
    · exact fun hx' => (hc.mem_erase_iff.mp hx').1 rfl

theorem disjoint3_erase3 {a b c : List String} (k : String)
    (h : disjoint3 a b c) : disjoint3 a b (c.erase k) := by
  obtain ⟨ha, hb, hc, hab, hbc⟩ := h
  exact ⟨ha, hb, hc.erase k, fun x hx =>
    ⟨(hab x hx).1, fun hx' => (hab x hx).2 (List.mem_of_mem_erase hx')⟩,
    fun x hx hx' => hbc x hx (List.mem_of_mem_erase hx')⟩

theorem duplicate_objects_eq_nil_of_wf {s : LifecycleManager}
    (h : tiers_wf s) : duplicate_objects s = [] := by
  obtain ⟨-, -, -, hab, hbc⟩ := h
  have h1 : s.immediate_context.filter (fun x => decide (x ∈ s.active_cache)) = [] := by
    rw [List.filter_eq_nil]
    intro x hx
    simpa using (hab x hx).1
  have h2 : s.immediate_context.filter (fun x => decide (x ∈ s.background_context)) = [] := by
    rw [List.filter_eq_nil]
    intro x hx
    simpa using (hab x hx).2
  have h3 : s.active_cache.filter (fun x => decide (x ∈ s.background_context)) = [] := by
    rw [List.filter_eq_nil]
    intro x hx
    simpa using hbc x hx
  rw [duplicate_objects, h1, h2, h3]
  rfl

theorem check_state_consistency_ok_of_wf {s : LifecycleManager} (now : ℚ)
    (h : tiers_wf s) :
    ∃ t, check_state_consistency s now = .ok { s with last_state_check := t } := by
  unfold check_state_consistency
  split
  · exact ⟨s.last_state_check, rfl⟩
  · by_cases hp : s.pytest_mode
    · refine ⟨0, ?_⟩
      rw [if_pos hp, if_pos (duplicate_objects_eq_nil_of_wf (by exact h))]
    · refine ⟨now, ?_⟩
      rw [if_neg hp, if_pos (duplicate_objects_eq_nil_of_wf (by exact h))]

theorem check_state_consistency_error_cases {s : LifecycleManager} {now : ℚ}
    {e : RagError} {s' : LifecycleManager}
    (h : check_state_consistency s now = .error (e, s')) :
    e = .corruptState ∧ ∃ t, s' = { s with last_state_check := t } := by
  unfold check_state_consistency at h
  split at h
  · exact absurd h (by simp)
  · by_cases hp : s.pytest_mode
    · rw [if_pos hp] at h
      dsimp only [] at h
      split at h
      · exact absurd h (by simp)
      · rw [Except.error.injEq, Prod.mk.injEq] at h
        exact ⟨h.1.symm, 0, h.2.symm⟩
    · rw [if_neg hp] at h
      dsimp only [] at h
      split at h
      · exact absurd h (by simp)
      · rw [Except.error.injEq, Prod.mk.injEq] at h
        exact ⟨h.1.symm, now, h.2.symm⟩

theorem py_max_mem (best : String × ℚ) (l : List (String × ℚ)) :
    py_max best l ∈ best :: l := by
  induction l generalizing best with
  | nil => simp [py_max]
  | cons c rest ih =>
    have h := ih (if best.2 < c.2 then c else best)
    rw [show py_max best (c :: rest) = py_max (if best.2 < c.2 then c else best) rest
      from rfl]
    rcases List.mem_cons.mp h with h' | h'
    · rw [h']
      split
      · exact List.mem_cons_of_mem _ (List.mem_cons_self _ _)
      · exact List.mem_cons_self _ _
    · exact List.mem_cons_of_mem _ (List.mem_cons_of_mem _ h')

theorem py_max_le (best : String × ℚ) (l : List (String × ℚ)) :
    ∀ x ∈ best :: l, x.2 ≤ (py_max best l).2 := by
  induction l generalizing best with
  | nil =>
    intro x hx
    rcases List.mem_cons.mp hx with rfl | h
    · exact le_refl _
    · simp at h
  | cons c rest ih =>
    intro x hx
    have hbest : best.2 ≤ (if best.2 < c.2 then c else best).2 := by
      split
      · rename_i hlt
        exact hlt.le
      · exact le_refl _
    have hc : c.2 ≤ (if best.2 < c.2 then c else best).2 := by
      split
      · exact le_refl _
      · rename_i hlt
        exact le_of_not_lt hlt
    have hrec := ih (if best.2 < c.2 then c else best)
    rcases List.mem_cons.mp hx with rfl | hx'
    · exact hbest.trans (hrec _ (List.mem_cons_self _ _))
    · rcases List.mem_cons.mp hx' with rfl | hx''
      · exact hc.trans (hrec _ (List.mem_cons_self _ _))
      · exact hrec _ (List.mem_cons_of_mem _ hx'')

theorem find_demotion_candidate_mem {priorities : List (String × Int)}
    {last_accessed : List (String × ℚ)} {now : ℚ} {ctx : List String}
    {thr : Option ℚ} {c : String}
    (h : find_demotion_candidate priorities last_accessed now ctx thr = some c) :
    c ∈ ctx := by
  unfold find_demotion_candidate at h
  rcases hf : ctx.find? (threshold_hit last_accessed now thr) with _ | found
  · rw [hf] at h
    rcases hctx : ctx with _ | ⟨x, rest⟩
    · subst hctx
      simp at h
    · subst hctx
      simp only [List.map_cons, Option.some.injEq] at h
      have hmem := py_max_mem (x, score_of priorities last_accessed now x)
        (rest.map (fun obj_id => (obj_id, score_of priorities last_accessed now obj_id)))
      rcases List.mem_cons.mp hmem with heq | hmem'
      · rw [← h, heq]
        exact List.mem_cons_self _ _
      · obtain ⟨y, hy, hfy⟩ := List.mem_map.mp hmem'
        rw [← h, ← hfy]
        exact List.mem_cons_of_mem _ hy
  · rw [hf] at h
    rw [Option.some.injEq] at h
    subst h
    exact List.mem_of_find?_eq_some hf

theorem find_demotion_candidate_none_spec (priorities : List (String × Int))
    (last_accessed : List (String × ℚ)) (now : ℚ) {ctx : List String}
    (h : ctx ≠ []) :
    ∃ c ∈ ctx, find_demotion_candidate priorities last_accessed now ctx none = some c := by
  rcases hres : find_demotion_candidate priorities last_accessed now ctx none with _ | c
  · exfalso
    unfold find_demotion_candidate at hres
    rw [List.find?_eq_none.mpr (fun x _ => by simp [threshold_hit])] at hres
    rcases hctx : ctx with _ | ⟨x, rest⟩
    · exact h hctx
    · subst hctx
      simp only [List.map_cons] at hres
      exact Option.some_ne_none _ hres
  · exact ⟨c, find_demotion_candidate_mem hres, rfl⟩

theorem demote_immediate_wf {s : LifecycleManager} {k : String} (h : tiers_wf s)
    (hk : k ∈ s.immediate_context) : tiers_wf (demote_immediate s k) :=
  disjoint3_shift1 h hk

theorem demote_active_wf {s : LifecycleManager} {k : String} (h : tiers_wf s)
    (hk : k ∈ s.active_cache) : tiers_wf (demote_active s k) :=
  disjoint3_shift2 h hk

theorem demote_background_wf {s : LifecycleManager} (k : String) (h : tiers_wf s) :
    tiers_wf (demote_background s k) :=
  disjoint3_erase3 k h

theorem rebalance_immediate_loop_wf (now : ℚ) :
    ∀ (fuel : Nat) (s : LifecycleManager), tiers_wf s →
      tiers_wf (rebalance_immediate_loop now fuel s) := by
  intro fuel
  induction fuel with
  | zero => exact fun s h => h
  | succ n ih =>
    intro s h
    rw [rebalance_immediate_loop]
    split
    · rcases hf : find_demotion_candidate s.priorities s.last_accessed now
          s.immediate_context none with _ | c
      · simp only [hf]
        exact h
      · simp only [hf]
        exact ih _ (demote_immediate_wf h (find_demotion_candidate_mem hf))
    · exact h

theorem rebalance_active_loop_wf (now : ℚ) :
    ∀ (fuel : Nat) (s : LifecycleManager), tiers_wf s →
      tiers_wf (rebalance_active_loop now fuel s) := by
  intro fuel
  induction fuel with
  | zero => exact fun s h => h
  | succ n ih =>
    intro s h
    rw [rebalance_active_loop]
    split
    · rcases hf : find_demotion_candidate s.priorities s.last_accessed now
          s.active_cache none with _ | c
      · simp only [hf]
        exact h
      · simp only [hf]
        exact ih _ (demote_active_wf h (find_demotion_candidate_mem hf))
    · exact h

theorem rebalance_background_loop_wf (now : ℚ) :
    ∀ (fuel : Nat) (s : LifecycleManager), tiers_wf s →
      tiers_wf (rebalance_background_loop now fuel s) := by
  intro fuel
  induction fuel with
  | zero => exact fun s h => h
  | succ n ih =>
    intro s h
    rw [rebalance_background_loop]
    split
    · rcases hf : find_demotion_candidate s.priorities s.last_accessed now
          s.background_context none with _ | c
      · simp only [hf]
        exact h
      · simp only [hf]
        exact ih _ (demote_background_wf c h)
    · exact h

theorem stale_step_wf {now : ℚ} {s : LifecycleManager} {k : String} (h : tiers_wf s)
    (hk : k ∈ s.active_cache) : tiers_wf (stale_step now s k) := by
  unfold stale_step
  dsimp only
  split
  · exact disjoint3_shift2 h hk
  · exact h

theorem stale_step_active_mem {now : ℚ} {s : LifecycleManager} {k y : String}
    (hy : y ∈ s.active_cache) (hyk : y ≠ k) :
    y ∈ (stale_step now s k).active_cache := by
  unfold stale_step
  dsimp only
  split
  · exact (List.mem_erase_of_ne hyk).mpr hy
  · exact hy

theorem stale_fold_wf (now : ℚ) :
    ∀ (l : List String) (s : LifecycleManager), tiers_wf s → l.Nodup →
      (∀ x ∈ l, x ∈ s.active_cache) → tiers_wf (l.foldl (stale_step now) s) := by
  intro l
  induction l with
  | nil => exact fun s h _ _ => h
  | cons x rest ih =>
    intro s h hnd hsub
    rw [List.foldl_cons]
    refine ih _ (stale_step_wf h (hsub x (List.mem_cons_self _ _)))
      (List.nodup_cons.mp hnd).2 ?_
    intro y hy
    have hyx : y ≠ x := fun e => (List.nodup_cons.mp hnd).1 (e ▸ hy)
    exact stale_step_active_mem (hsub y (List.mem_cons_of_mem _ hy)) hyx

theorem stale_sweep_wf (now : ℚ) {s : LifecycleManager} (h : tiers_wf s) :
    tiers_wf (stale_sweep now s) :=
  stale_fold_wf now s.active_cache s h h.2.1 (fun _ hx => hx)

theorem rebalance_all_tiers_wf (s : LifecycleManager) (now : ℚ) (h : tiers_wf s) :
    tiers_wf (rebalance_all_tiers s now) := by
  unfold rebalance_all_tiers
  exact rebalance_background_loop_wf now _ _
    (stale_sweep_wf now (rebalance_active_loop_wf now _ _
      (rebalance_immediate_loop_wf now _ _ h)))

theorem tiers_wf_init (b : Bool) : tiers_wf (lifecycle_manager_init b) :=
  ⟨List.nodup_nil, List.nodup_nil, List.nodup_nil,
    fun x hx => absurd hx (List.not_mem_nil x), fun x hx => absurd hx (List.not_mem_nil x)⟩

theorem lifecycle_step_safe {s : LifecycleManager} (h : tiers_wf s) (op : Op) :
    tiers_wf (lifecycle_step s op).1 ∧
    (lifecycle_step s op).2 ≠ some RagError.corruptState := by
  cases op with
  | activate_op obj_id priority now =>
    unfold lifecycle_step activate
    dsimp only
    split
    · exact ⟨h, by simp [apply_result]⟩
    · split
      · exact ⟨h, by simp [apply_result]⟩
      · split
        · exact ⟨rebalance_all_tiers_wf _ _ (disjoint3_promote_top obj_id h),
            by simp [apply_result]⟩
        · exact ⟨disjoint3_promote_top obj_id h, by simp [apply_result]⟩
  | mark_inactive_op obj_id now =>
    unfold lifecycle_step mark_inactive
    obtain ⟨t, hc⟩ := check_state_consistency_ok_of_wf now h
    simp only [hc]
    dsimp only
    split
    · rename_i hm
      split
      · exact ⟨disjoint3_shift1 h hm, by simp [apply_result]⟩
      · exact ⟨h, by simp [apply_result]⟩
    · split
      · rename_i hm
        split
        · exact ⟨disjoint3_shift2 h hm, by simp [apply_result]⟩
        · exact ⟨h, by simp [apply_result]⟩
      · split
        · exact ⟨h, by simp [apply_result]⟩
        · exact ⟨h, by simp [apply_result]⟩
  | deactivate_op obj_id now =>
    unfold lifecycle_step deactivate
    dsimp only
    split
    · exact ⟨h, by simp [apply_result]⟩
    · obtain ⟨t, hc⟩ := check_state_consistency_ok_of_wf now h
      simp only [hc]
      split
      · exact ⟨disjoint3_drop obj_id h, by simp [apply_result]⟩
      · exact ⟨disjoint3_drop obj_id h, by simp [apply_result]⟩
  | add_to_background_op obj_id now =>
    unfold lifecycle_step add_to_background
    dsimp only
    split
    · exact ⟨h, by simp [apply_result]⟩
    · exact ⟨disjoint3_to_bottom h, by simp [apply_result]⟩
  | get_object_op obj_id now =>
    unfold lifecycle_step get_object
    dsimp only
    split
    · exact ⟨h, by simp⟩
    · split
      · rename_i hm hm'
        split
        · exact ⟨disjoint3_promote2 h hm', by simp⟩
        · exact ⟨h, by simp⟩
      · split
        · rename_i hm hm' hm''
          split
          · exact ⟨disjoint3_promote3 h hm'', by simp⟩
          · exact ⟨h, by simp⟩
        · exact ⟨h, by simp⟩
  | set_memory_pressure_op pressure now =>
    unfold lifecycle_step set_memory_pressure
    dsimp only
    split
    · exact ⟨h, by simp [apply_result]⟩
    · split
      · exact ⟨rebalance_all_tiers_wf _ _ h, by simp [apply_result]⟩
      · split
        · exact ⟨rebalance_all_tiers_wf _ _ h, by simp [apply_result]⟩
        · exact ⟨rebalance_all_tiers_wf _ _ h, by simp [apply_result]⟩
  | rebalance_op now =>
    exact ⟨rebalance_all_tiers_wf _ _ h, by simp [lifecycle_step]⟩

theorem run_ops_wf {s : LifecycleManager} (h : tiers_wf s) (ops : List Op) :
    tiers_wf (run_ops s ops) := by
  induction ops generalizing s with
  | nil => exact h
  | cons op rest ih =>
    rw [run_ops, List.foldl_cons]
    exact ih (lifecycle_step_safe h op).1

/-- How many of the three tier containers hold the given id. -/
def containers_holding (s : LifecycleManager) (obj_id : String) : Nat :=
  (if obj_id ∈ s.immediate_context then 1 else 0) +
  (if obj_id ∈ s.active_cache then 1 else 0) +
  (if obj_id ∈ s.background_context then 1 else 0)

/-- C1 (Exclusive ownership, invariant I1): running any sequence of
`activate` / `mark_inactive` / `deactivate` / `add_to_background` /
`get_object` / `set_memory_pressure` / rebalance calls from a fresh
`LifecycleManager` (in either consistency-check mode), every id is present in
at most one of the three tier containers, and the next call — whatever it
is — never raises a corrupt-state error.  Quantifying over all call
sequences covers every intermediate point of every sequence, so no legitimate
sequence ever observes a corrupt-state error or a doubly-held id. -/
theorem lifecycle_exclusive_ownership_invariant (mode : Bool) (ops : List Op) :
    (∀ obj_id, containers_holding (run_ops (lifecycle_manager_init mode) ops) obj_id ≤ 1) ∧
    ∀ op, (lifecycle_step (run_ops (lifecycle_manager_init mode) ops) op).2 ≠
      some RagError.corruptState := by
  have hwf := run_ops_wf (tiers_wf_init mode) ops
  refine ⟨?_, fun op => (lifecycle_step_safe hwf op).2⟩
  intro obj_id
  obtain ⟨-, -, -, hab, hbc⟩ := hwf
  unfold containers_holding
  by_cases h1 : obj_id ∈ (run_ops (lifecycle_manager_init mode) ops).immediate_context
  · rw [if_pos h1, if_neg (hab _ h1).1, if_neg (hab _ h1).2]
  · rw [if_neg h1]
    by_cases h2 : obj_id ∈ (run_ops (lifecycle_manager_init mode) ops).active_cache
    · rw [if_pos h2, if_neg (hbc _ h2)]
    · rw [if_neg h2]
      split <;> omega

theorem rebalance_immediate_loop_frame (now : ℚ) :
    ∀ (fuel : Nat) (s : LifecycleManager),
      (rebalance_immediate_loop now fuel s).immediate_limit = s.immediate_limit ∧
      (rebalance_immediate_loop now fuel s).active_limit = s.active_limit ∧
      (rebalance_immediate_loop now fuel s).background_limit = s.background_limit := by
  intro fuel
  induction fuel with
  | zero => exact fun s => ⟨rfl, rfl, rfl⟩
  | succ n ih =>
    intro s
    rw [rebalance_immediate_loop]
    split
    · rcases hf : find_demotion_candidate s.priorities s.last_accessed now
          s.immediate_context none with _ | c
      · simp only [hf]
        exact ⟨trivial, trivial, trivial⟩
      · simp only [hf]
        exact ih _
    · exact ⟨rfl, rfl, rfl⟩

theorem rebalance_immediate_loop_bound (now : ℚ) :
    ∀ (fuel : Nat) (s : LifecycleManager),
      s.immediate_context.length ≤ fuel + s.immediate_limit →
      (rebalance_immediate_loop now fuel s).immediate_context.length ≤
        (rebalance_immediate_loop now fuel s).immediate_limit := by
  intro fuel
  induction fuel with
  | zero =>
    intro s h
    simpa [rebalance_immediate_loop] using h
  | succ n ih =>
    intro s h
    rw [rebalance_immediate_loop]
    split
    · rename_i hover
      have hne : s.immediate_context ≠ [] := by
        intro hnil
        rw [hnil] at hover
        simp at hover
      obtain ⟨c, hcmem, hceq⟩ :=
        find_demotion_candidate_none_spec s.priorities s.last_accessed now hne
      simp only [hceq]
      apply ih
      show (s.immediate_context.erase c).length ≤ n + s.immediate_limit
      rw [List.length_erase_of_mem hcmem]
      omega
    · rename_i hover
      rw [not_lt] at hover
      exact hover

theorem rebalance_active_loop_frame (now : ℚ) :
    ∀ (fuel : Nat) (s : LifecycleManager),
      (rebalance_active_loop now fuel s).immediate_context = s.immediate_context ∧
      (rebalance_active_loop now fuel s).immediate_limit = s.immediate_limit ∧
      (rebalance_active_loop now fuel s).active_limit = s.active_limit ∧
      (rebalance_active_loop now fuel s).background_limit = s.background_limit := by
  intro fuel
  induction fuel with
  | zero => exact fun s => ⟨rfl, rfl, rfl, rfl⟩
  | succ n ih =>
    intro s
    rw [rebalance_active_loop]
    split
    · rcases hf : find_demotion_candidate s.priorities s.last_accessed now
          s.active_cache none with _ | c
      · simp only [hf]
        exact ⟨trivial, trivial, trivial, trivial⟩
      · simp only [hf]
        exact ih _
    · exact ⟨rfl, rfl, rfl, rfl⟩

theorem rebalance_active_loop_bound (now : ℚ) :
    ∀ (fuel : Nat) (s : LifecycleManager),
      s.active_cache.length ≤ fuel + s.active_limit →
      (rebalance_active_loop now fuel s).active_cache.length ≤
        (rebalance_active_loop now fuel s).active_limit := by
  intro fuel
  induction fuel with
  | zero =>
    intro s h
    simpa [rebalance_active_loop] using h
  | succ n ih =>
    intro s h
    rw [rebalance_active_loop]
    split
    · rename_i hover
      have hne : s.active_cache ≠ [] := by
        intro hnil
        rw [hnil] at hover
        simp at hover
      obtain ⟨c, hcmem, hceq⟩ :=
        find_demotion_candidate_none_spec s.priorities s.last_accessed now hne
      simp only [hceq]
      apply ih
      show (s.active_cache.erase c).length ≤ n + s.active_limit
      rw [List.length_erase_of_mem hcmem]
      omega
    · rename_i hover
      rw [not_lt] at hover
      exact hover

theorem rebalance_background_loop_frame (now : ℚ) :
    ∀ (fuel : Nat) (s : LifecycleManager),
      (rebalance_background_loop now fuel s).immediate_context = s.immediate_context ∧
      (rebalance_background_loop now fuel s).active_cache = s.active_cache ∧
      (rebalance_background_loop now fuel s).immediate_limit = s.immediate_limit ∧
      (rebalance_background_loop now fuel s).active_limit = s.active_limit ∧
      (rebalance_background_loop now fuel s).background_limit = s.background_limit := by
  intro fuel
  induction fuel with
  | zero => exact fun s => ⟨rfl, rfl, rfl, rfl, rfl⟩
  | succ n ih =>
    intro s
    rw [rebalance_background_loop]
    split
    · rcases hf : find_demotion_candidate s.priorities s.last_accessed now
          s.background_context none with _ | c
      · simp only [hf]
        exact ⟨trivial, trivial, trivial, trivial, trivial⟩
      · simp only [hf]
        exact ih _
    · exact ⟨rfl, rfl, rfl, rfl, rfl⟩

theorem rebalance_background_loop_bound (now : ℚ) :
    ∀ (fuel : Nat) (s : LifecycleManager),
      s.background_context.length ≤ fuel + s.background_limit →
      (rebalance_background_loop now fuel s).background_context.length ≤
        (rebalance_background_loop now fuel s).background_limit := by
  intro fuel
  induction fuel with
  | zero =>
    intro s h
    simpa [rebalance_background_loop] using h
  | succ n ih =>
    intro s h
    rw [rebalance_background_loop]
    split
    · rename_i hover
      have hne : s.background_context ≠ [] := by
        intro hnil
        rw [hnil] at hover
        simp at hover
      obtain ⟨c, hcmem, hceq⟩ :=
        find_demotion_candidate_none_spec s.priorities s.last_accessed now hne
      simp only [hceq]
      apply ih
      show (s.background_context.erase c).length ≤ n + s.background_limit
      rw [List.length_erase_of_mem hcmem]
      omega
    · rename_i hover
      rw [not_lt] at hover
      exact hover

theorem stale_step_frame (now : ℚ) (s : LifecycleManager) (k : String) :
    (stale_step now s k).immediate_context = s.immediate_context ∧
    (stale_step now s k).immediate_limit = s.immediate_limit ∧
    (stale_step now s k).active_limit = s.active_limit ∧
    (stale_step now s k).background_limit = s.background_limit ∧
    (stale_step now s k).active_cache.length ≤ s.active_cache.length := by
  unfold stale_step
  dsimp only
  split
  · exact ⟨rfl, rfl, rfl, rfl, List.length_erase_le _ _⟩
  · exact ⟨rfl, rfl, rfl, rfl, le_refl _⟩

theorem stale_fold_frame (now : ℚ) :
    ∀ (l : List String) (s : LifecycleManager),
      (l.foldl (stale_step now) s).immediate_context = s.immediate_context ∧
      (l.foldl (stale_step now) s).immediate_limit = s.immediate_limit ∧
      (l.foldl (stale_step now) s).active_limit = s.active_limit ∧
      (l.foldl (stale_step now) s).background_limit = s.background_limit ∧
      (l.foldl (stale_step now) s).active_cache.length ≤ s.active_cache.length := by
  intro l
  induction l with
  | nil => exact fun s => ⟨rfl, rfl, rfl, rfl, le_refl _⟩
  | cons x rest ih =>
    intro s
    rw [List.foldl_cons]
    obtain ⟨f1, f2, f3, f4, f5⟩ := ih (stale_step now s x)
    obtain ⟨g1, g2, g3, g4, g5⟩ := stale_step_frame now s x
    exact ⟨f1.trans g1, f2.trans g2, f3.trans g3, f4.trans g4, f5.trans g5⟩

theorem stale_sweep_frame (now : ℚ) (s : LifecycleManager) :
    (stale_sweep now s).immediate_context = s.immediate_context ∧
    (stale_sweep now s).immediate_limit = s.immediate_limit ∧
    (stale_sweep now s).active_limit = s.active_limit ∧
    (stale_sweep now s).background_limit = s.background_limit ∧
    (stale_sweep now s).active_cache.length ≤ s.active_cache.length :=
  stale_fold_frame now s.active_cache s

theorem rebalance_all_tiers_bounds (s : LifecycleManager) (now : ℚ) :
    (rebalance_all_tiers s now).immediate_context.length ≤
      (rebalance_all_tiers s now).immediate_limit ∧
    (rebalance_all_tiers s now).active_cache.length ≤
      (rebalance_all_tiers s now).active_limit ∧
    (rebalance_all_tiers s now).background_context.length ≤
      (rebalance_all_tiers s now).background_limit := by
  unfold rebalance_all_tiers
  dsimp only
  set s₁ := rebalance_immediate_loop now s.immediate_context.length s with hs₁
  set s₂ := rebalance_active_loop now s₁.active_cache.length s₁ with hs₂
  set s₃ := stale_sweep now s₂ with hs₃
  set s₄ := rebalance_background_loop now s₃.background_context.length s₃ with hs₄
  have h1 : s₁.immediate_context.length ≤ s₁.immediate_limit :=
    rebalance_immediate_loop_bound now _ s (by omega)
  have h2 : s₂.active_cache.length ≤ s₂.active_limit :=
    rebalance_active_loop_bound now _ s₁ (by omega)
  have f2 := rebalance_active_loop_frame now s₁.active_cache.length s₁
  have f3 := stale_sweep_frame now s₂
  have f4 := rebalance_background_loop_frame now s₃.background_context.length s₃
  have h4 : s₄.background_context.length ≤ s₄.background_limit :=
    rebalance_background_loop_bound now _ s₃ (by omega)
  refine ⟨?_, ?_, h4⟩
  · rw [f4.1, f3.1, f2.1, f4.2.2.1, f3.2.1, f2.2.1]
    exact h1
  · rw [f4.2.1, f4.2.2.2.1, f3.2.2.1]
    exact le_trans f3.2.2.2.2 h2

/-- Thirty-one activations of distinct fresh objects (ids "0" … "30",
default priority 0) at wall time 1000. -/
def thirty_one_activations : List Op :=
  (List.range 31).map (fun n => Op.activate_op (toString n) 0 1000)

set_option maxRecDepth 4000

/-- C4 (Capacity compliance, invariant I2): after any rebalance each tier
container's size is at most its current limit, and activating 31 distinct
fresh objects with the default immediate limit of 30 triggers exactly one
demotion to the active cache — the immediate context ends at exactly 30
members, the active cache holds exactly the one demoted object (the oldest
insertion, id "0"), the background context stays empty, and the transition
counter shows the 31 activations plus the single rebalance demotion. -/
theorem rebalance_capacity_compliance :
    (∀ (s : LifecycleManager) (now : ℚ),
      (rebalance_all_tiers s now).immediate_context.length ≤
        (rebalance_all_tiers s now).immediate_limit ∧
      (rebalance_all_tiers s now).active_cache.length ≤
        (rebalance_all_tiers s now).active_limit ∧
      (rebalance_all_tiers s now).background_context.length ≤
        (rebalance_all_tiers s now).background_limit) ∧
    (run_ops (lifecycle_manager_init false) thirty_one_activations).immediate_context.length
      = 30 ∧
    (run_ops (lifecycle_manager_init false) thirty_one_activations).active_cache = ["0"] ∧
    (run_ops (lifecycle_manager_init false) thirty_one_activations).background_context = [] ∧
    (run_ops (lifecycle_manager_init false) thirty_one_activations).tier_transitions = 32 :=
  ⟨rebalance_all_tiers_bounds, by decide, by decide, by decide, by decide⟩

/-- A manager whose immediate context holds one object `"i"`. -/
def imm_resident_manager : LifecycleManager :=
  { lifecycle_manager_init false with
      immediate_context := ["i"],
      obj_states := [("i", ObjectState.IMMEDIATE)] }

/-- A manager whose active cache holds one object `"a"`. -/
def active_resident_manager : LifecycleManager :=
  { lifecycle_manager_init false with
      active_cache := ["a"],
      obj_states := [("a", ObjectState.ACTIVE)] }

/-- A manager whose background context holds one object `"b"`. -/
def background_resident_manager : LifecycleManager :=
  { lifecycle_manager_init false with
      background_context := ["b"],
      obj_states := [("b", ObjectState.BACKGROUND)] }

/-- Like `active_resident_manager` but with the immediate limit forced to 0,
so a read hit cannot promote. -/
def active_resident_full_manager : LifecycleManager :=
  { active_resident_manager with immediate_limit := 0 }

/-- Like `background_resident_manager` but with the active limit forced to 0,
so a read hit cannot promote. -/
def background_resident_full_manager : LifecycleManager :=
  { background_resident_manager with active_limit := 0 }

/-- A manager whose active cache holds `"x"` (last accessed at 600) and `"y"`
(last accessed at 100). -/
def stale_active_manager : LifecycleManager :=
  { lifecycle_manager_init false with
      active_cache := ["x", "y"],
      obj_states := [("x", ObjectState.ACTIVE), ("y", ObjectState.ACTIVE)],
      last_accessed := [("x", 600), ("y", 100)] }

/-- C2 (code bug): rebalancing `stale_active_manager` at wall time 1000 must,
per the spec's 300-second staleness window, demote `"x"` (age 400 > 300) from
Active to Background — but the code compares the age against
`old_threshold = now − 300` (a timestamp used as if it were a window), so
`"x"` stays in Active; `"y"` (age 900 > now − 300 = 700) is the kind of
member the broken comparison does demote.  With a real epoch clock
(`now ≈ 1.7e9`) the comparison `age > now − 300` only fires for last-access
stamps below 300, i.e. essentially never, contradicting the code's own
comment "Move old objects from active to background". -/
theorem stale_demotion_threshold_bug :
    rat_sub 1000 ((dict_get stale_active_manager.last_accessed "x").getD 0) > 300 ∧
    (rebalance_all_tiers stale_active_manager 1000).active_cache = ["x"] ∧
    (rebalance_all_tiers stale_active_manager 1000).background_context = ["y"] := by
  decide

theorem dict_get_set_self {α : Type} (m : List (String × α)) (k : String) (v : α) :
    dict_get (dict_set m k v) k = some v := by
  induction m with
  | nil => simp [dict_set, dict_get]
  | cons p rest ih =>
    obtain ⟨k', v'⟩ := p
    by_cases h : k' = k
    · simp [dict_set, dict_get, h]
    · simp only [dict_set, dict_get, if_neg h]
      exact ih

/-- C8: `get_object` searches immediate, then active, then background, in that
order, returning the first match; an immediate hit only refreshes the access
times (and the hit counter); an active hit moves the object to immediate
exactly when the immediate context is strictly under its limit (never evicting
to make room); a background hit moves it to active under the same
capacity-gated rule; a miss increments the miss counter and returns nothing,
while every hit increments the hit counter. -/
theorem get_object_spec (s : LifecycleManager) (obj_id : String) (now : ℚ) :
    (obj_id ∈ s.immediate_context →
      get_object s obj_id now = (some obj_id, { s with
        cache_hits := s.cache_hits + 1,
        obj_last_accessed := dict_set s.obj_last_accessed obj_id now,
        last_accessed := dict_set s.last_accessed obj_id now })) ∧
    (obj_id ∉ s.immediate_context → obj_id ∈ s.active_cache →
      s.immediate_context.length < s.immediate_limit →
      get_object s obj_id now = (some obj_id, { s with
        cache_hits := s.cache_hits + 1,
        active_cache := s.active_cache.erase obj_id,
        obj_states := dict_set s.obj_states obj_id ObjectState.IMMEDIATE,
        immediate_context := od_insert s.immediate_context obj_id,
        tier_transitions := s.tier_transitions + 1 })) ∧
    (obj_id ∉ s.immediate_context → obj_id ∈ s.active_cache →
      ¬ s.immediate_context.length < s.immediate_limit →
      get_object s obj_id now =
        (some obj_id, { s with cache_hits := s.cache_hits + 1 })) ∧
    (obj_id ∉ s.immediate_context → obj_id ∉ s.active_cache →
      obj_id ∈ s.background_context → s.active_cache.length < s.active_limit →
      get_object s obj_id now = (some obj_id, { s with
        cache_hits := s.cache_hits + 1,
        background_context := s.background_context.erase obj_id,
        obj_states := dict_set s.obj_states obj_id ObjectState.ACTIVE,
        active_cache := od_insert s.active_cache obj_id,
        tier_transitions := s.tier_transitions + 1 })) ∧
    (obj_id ∉ s.immediate_context → obj_id ∉ s.active_cache →
      obj_id ∈ s.background_context → ¬ s.active_cache.length < s.active_limit →
      get_object s obj_id now =
        (some obj_id, { s with cache_hits := s.cache_hits + 1 })) ∧
    (obj_id ∉ s.immediate_context → obj_id ∉ s.active_cache →
      obj_id ∉ s.background_context →
      get_object s obj_id now = (none, { s with cache_misses := s.cache_misses + 1 })) := by
  refine ⟨?_, ?_, ?_, ?_, ?_, ?_⟩
  · intro h1
    unfold get_object
    rw [if_pos h1]
  · intro h1 h2 h3
    unfold get_object
    rw [if_neg h1, if_pos h2, if_pos h3]
  · intro h1 h2 h3
    unfold get_object
    rw [if_neg h1, if_pos h2, if_neg h3]
  · intro h1 h2 h3 h4
    unfold get_object
    rw [if_neg h1, if_neg h2, if_pos h3, if_pos h4]
  · intro h1 h2 h3 h4
    unfold get_object
    rw [if_neg h1, if_neg h2, if_pos h3, if_neg h4]
  · intro h1 h2 h3
    unfold get_object
    rw [if_neg h1, if_neg h2, if_neg h3]

/-- Witness for C8: each of the six cases evaluated on a concrete manager. -/
theorem get_object_spec_witness :
    get_object imm_resident_manager "i" 5 = (some "i", { imm_resident_manager with
      cache_hits := 1,
      obj_last_accessed := [("i", 5)],
      last_accessed := [("i", 5)] }) ∧
    get_object active_resident_manager "a" 5 = (some "a", { active_resident_manager with
      cache_hits := 1,
      active_cache := [],
      obj_states := [("a", ObjectState.IMMEDIATE)],
      immediate_context := ["a"],
      tier_transitions := 1 }) ∧
    get_object active_resident_full_manager "a" 5 =
      (some "a", { active_resident_full_manager with cache_hits := 1 }) ∧
    get_object background_resident_manager "b" 5 =
      (some "b", { background_resident_manager with
        cache_hits := 1,
        background_context := [],
        obj_states := [("b", ObjectState.ACTIVE)],
        active_cache := ["b"],
        tier_transitions := 1 }) ∧
    get_object background_resident_full_manager "b" 5 =
      (some "b", { background_resident_full_manager with cache_hits := 1 }) ∧
    get_object (lifecycle_manager_init false) "z" 5 =
      (none, { lifecycle_manager_init false with cache_misses := 1 }) := by
  refine ⟨?_, ?_, ?_, ?_, ?_, ?_⟩
  · rw [(get_object_spec imm_resident_manager "i" 5).1 (by decide)]
    decide
  · rw [(get_object_spec active_resident_manager "a" 5).2.1 (by decide) (by decide)
      (by decide)]
    decide
  · rw [(get_object_spec active_resident_full_manager "a" 5).2.2.1 (by decide) (by decide)
      (by decide)]
    decide
  · rw [(get_object_spec background_resident_manager "b" 5).2.2.2.1 (by decide) (by decide)
      (by decide) (by decide)]
    decide
  · rw [(get_object_spec background_resident_full_manager "b" 5).2.2.2.2.1 (by decide)
      (by decide) (by decide) (by decide)]
    decide
  · rw [(get_object_spec (lifecycle_manager_init false) "z" 5).2.2.2.2.2 (by decide)
      (by decide) (by decide)]
    decide

/-- C10 (frame effect): a `get_object` hit outside the immediate context —
in active or background, promoted or not — leaves the manager's last-accessed
map and every object's `last_accessed` field untouched, so a promoted object
carries its pre-promotion access time; only an immediate hit stamps both with
the current time. -/
theorem get_object_access_time_frame (s : LifecycleManager) (obj_id : String) (now : ℚ) :
    (obj_id ∉ s.immediate_context →
      (get_object s obj_id now).2.last_accessed = s.last_accessed ∧
      (get_object s obj_id now).2.obj_last_accessed = s.obj_last_accessed) ∧
    (obj_id ∈ s.immediate_context →
      dict_get (get_object s obj_id now).2.last_accessed obj_id = some now ∧
      dict_get (get_object s obj_id now).2.obj_last_accessed obj_id = some now) := by
  constructor
  · intro h1
    unfold get_object
    rw [if_neg h1]
    by_cases h2 : obj_id ∈ s.active_cache
    · rw [if_pos h2]
      dsimp only
      split
      · exact ⟨rfl, rfl⟩
      · exact ⟨rfl, rfl⟩
    · rw [if_neg h2]
      by_cases h3 : obj_id ∈ s.background_context
      · rw [if_pos h3]
        dsimp only
        split
        · exact ⟨rfl, rfl⟩
        · exact ⟨rfl, rfl⟩
      · rw [if_neg h3]
        exact ⟨rfl, rfl⟩
  · intro h1
    unfold get_object
    rw [if_pos h1]
    exact ⟨dict_get_set_self _ _ _, dict_get_set_self _ _ _⟩

/-- Witness for C10: a promoted active hit keeps both access-time records, an
immediate hit stamps them. -/
theorem get_object_access_time_frame_witness :
    ((get_object active_resident_manager "a" 5).2.last_accessed =
        active_resident_manager.last_accessed ∧
      (get_object active_resident_manager "a" 5).2.obj_last_accessed =
        active_resident_manager.obj_last_accessed) ∧
    (dict_get (get_object imm_resident_manager "i" 5).2.last_accessed "i" = some 5 ∧
      dict_get (get_object imm_resident_manager "i" 5).2.obj_last_accessed "i" = some 5) :=
  ⟨(get_object_access_time_frame active_resident_manager "a" 5).1 (by decide),
    (get_object_access_time_frame imm_resident_manager "i" 5).2 (by decide)⟩

instance : DecidableEq (Except (RagError × LifecycleManager) LifecycleManager) :=
  fun a b =>
    match a, b with
    | .ok x, .ok y => decidable_of_iff (x = y) (by simp)
    | .error e, .error f => decidable_of_iff (e = f) (by simp)
    | .ok _, .error _ => isFalse (by simp)
    | .error _, .ok _ => isFalse (by simp)

/-- Counterexample for C9: `add_to_background` does not succeed for an object
resident in the Immediate container — `IMMEDIATE → BACKGROUND` is not in the
valid-transition table, so the call raises a transition error and leaves the
manager unchanged. -/
theorem add_to_background_immediate_counterexample :
    imm_resident_manager.immediate_context = ["i"] ∧
    obj_state imm_resident_manager "i" = ObjectState.IMMEDIATE ∧
    add_to_background imm_resident_manager "i" 0 =
      .error (.stateTransition, imm_resident_manager) := by
  decide

/-- C9 (amended): `add_to_background` validates the transition to Background,
which succeeds exactly when the object's state is Inactive or Active: it then
strips the object from the Immediate and Active containers, stamps both
access-time records, sets the state to Background and inserts into the
Background container — in particular it succeeds for an object resident in
the Active container; but for an object resident in the Immediate container
(state Immediate), or one already in Background, it raises a transition
error, because `IMMEDIATE → BACKGROUND` and `BACKGROUND → BACKGROUND` are not
in the legal table. -/
theorem add_to_background_spec (s : LifecycleManager) (obj_id : String) (now : ℚ) :
    (obj_state s obj_id = ObjectState.INACTIVE ∨ obj_state s obj_id = ObjectState.ACTIVE →
      add_to_background s obj_id now = .ok { s with
        immediate_context := s.immediate_context.erase obj_id,
        active_cache := s.active_cache.erase obj_id,
        last_accessed := dict_set s.last_accessed obj_id now,
        obj_last_accessed := dict_set s.obj_last_accessed obj_id now,
        obj_states := dict_set s.obj_states obj_id ObjectState.BACKGROUND,
        background_context := od_insert s.background_context obj_id,
        tier_transitions := s.tier_transitions + 1 }) ∧
    (obj_state s obj_id = ObjectState.IMMEDIATE ∨ obj_state s obj_id = ObjectState.BACKGROUND →
      add_to_background s obj_id now = .error (.stateTransition, s)) := by
  constructor
  · intro hst
    have hv : valid_transition (obj_state s obj_id) ObjectState.BACKGROUND = true := by
      rcases hst with h | h <;> rw [h] <;> decide
    unfold add_to_background
    rw [if_neg (fun hc => hc hv)]
  · intro hst
    have hv : ¬ valid_transition (obj_state s obj_id) ObjectState.BACKGROUND = true := by
      rcases hst with h | h <;> rw [h] <;> decide
    unfold add_to_background
    rw [if_pos hv]

/-- Witness for C9 (amended): the success case on an Active-resident object
and the error case on an Immediate-resident object. -/
theorem add_to_background_spec_witness :
    add_to_background active_resident_manager "a" 7 = .ok { active_resident_manager with
      immediate_context := [],
      active_cache := [],
      last_accessed := [("a", 7)],
      obj_last_accessed := [("a", 7)],
      obj_states := [("a", ObjectState.BACKGROUND)],
      background_context := ["a"],
      tier_transitions := 1 } ∧
    add_to_background imm_resident_manager "i" 7 =
      .error (.stateTransition, imm_resident_manager) := by
  constructor
  · rw [(add_to_background_spec active_resident_manager "a" 7).1 (Or.inr (by decide))]
    decide
  · exact (add_to_background_spec imm_resident_manager "i" 7).2 (Or.inl (by decide))

/-- The client-visible store of a manager: the three tier containers, the
priority map, and both access-time records. -/
def same_store (s s' : LifecycleManager) : Prop :=
  s'.immediate_context = s.immediate_context ∧
  s'.active_cache = s.active_cache ∧
  s'.background_context = s.background_context ∧
  s'.priorities = s.priorities ∧
  s'.last_accessed = s.last_accessed ∧
  s'.obj_last_accessed = s.obj_last_accessed

theorem same_store_refl (s : LifecycleManager) : same_store s s :=
  ⟨rfl, rfl, rfl, rfl, rfl, rfl⟩

theorem check_state_consistency_ok_cases {s : LifecycleManager} {now : ℚ}
    {s₁ : LifecycleManager} (h : check_state_consistency s now = .ok s₁) :
    ∃ t, s₁ = { s with last_state_check := t } := by
  unfold check_state_consistency at h
  split at h
  · rw [Except.ok.injEq] at h
    exact ⟨s.last_state_check, h.symm⟩
  · by_cases hp : s.pytest_mode
    · rw [if_pos hp] at h
      dsimp only [] at h
      split at h
      · rw [Except.ok.injEq] at h
        exact ⟨0, h.symm⟩
      · exact absurd h (by simp)
    · rw [if_neg hp] at h
      dsimp only [] at h
      split at h
      · rw [Except.ok.injEq] at h
        exact ⟨now, h.symm⟩
      · exact absurd h (by simp)

/-- C5 (Error atomicity): a `deactivate` of an already-inactive object raises
a transition error returning the manager exactly as it was; an out-of-range
`set_memory_pressure` raises a value error before touching the limits, the
recorded pressure, its history or its peak (the state is returned exactly);
and any error raised by `activate`, `mark_inactive`, `deactivate` or
`add_to_background` leaves all three containers, the priority map and both
access-time maps unchanged. -/
theorem error_atomicity_spec :
    (∀ (s : LifecycleManager) (obj_id : String) (now : ℚ),
      obj_state s obj_id = ObjectState.INACTIVE →
      deactivate s obj_id now = .error (.stateTransition, s)) ∧
    (∀ (s : LifecycleManager) (pressure now : ℚ), ¬ (0 ≤ pressure ∧ pressure ≤ 1) →
      set_memory_pressure s pressure now = .error (.valueError, s)) ∧
    (∀ (s : LifecycleManager) (obj_id : String) (priority : Int) (now : ℚ)
        (e : RagError) (s' : LifecycleManager),
      activate s obj_id priority now = .error (e, s') → same_store s s') ∧
    (∀ (s : LifecycleManager) (obj_id : String) (now : ℚ) (e : RagError)
        (s' : LifecycleManager),
      mark_inactive s obj_id now = .error (e, s') → same_store s s') ∧
    (∀ (s : LifecycleManager) (obj_id : String) (now : ℚ) (e : RagError)
        (s' : LifecycleManager),
      deactivate s obj_id now = .error (e, s') → same_store s s') ∧
    (∀ (s : LifecycleManager) (obj_id : String) (now : ℚ) (e : RagError)
        (s' : LifecycleManager),
      add_to_background s obj_id now = .error (e, s') → same_store s s') := by
  refine ⟨?_, ?_, ?_, ?_, ?_, ?_⟩
  · intro s obj_id now h
    unfold deactivate
    rw [if_pos h]
  · intro s pressure now h
    unfold set_memory_pressure
    rw [if_pos h]
  · intro s obj_id priority now e s' h
    unfold activate at h
    dsimp only at h
    split at h
    · exact absurd h (by simp)
    · split at h
      · rw [Except.error.injEq, Prod.mk.injEq] at h
        rw [← h.2]
        exact same_store_refl s
      · split at h
        · exact absurd h (by simp)
        · exact absurd h (by simp)
  · intro s obj_id now e s' h
    unfold mark_inactive at h
    rcases hc : check_state_consistency s now with ⟨e₁, s₁⟩ | s₁
    · simp only [hc] at h
      rw [Except.error.injEq, Prod.mk.injEq] at h
      obtain ⟨-, ⟨t, hs₁⟩⟩ := check_state_consistency_error_cases hc
      rw [← h.2, hs₁]
      exact ⟨rfl, rfl, rfl, rfl, rfl, rfl⟩
    · simp only [hc] at h
      obtain ⟨t, rfl⟩ := check_state_consistency_ok_cases hc
      split at h
      · split at h
        · exact absurd h (by simp)
        · rw [Except.error.injEq, Prod.mk.injEq] at h
          rw [← h.2]
          exact ⟨rfl, rfl, rfl, rfl, rfl, rfl⟩
      · split at h
        · split at h
          · exact absurd h (by simp)
          · rw [Except.error.injEq, Prod.mk.injEq] at h
            rw [← h.2]
            exact ⟨rfl, rfl, rfl, rfl, rfl, rfl⟩
        · split at h
          · rw [Except.error.injEq, Prod.mk.injEq] at h
            rw [← h.2]
            exact ⟨rfl, rfl, rfl, rfl, rfl, rfl⟩
          · exact absurd h (by simp)
  · intro s obj_id now e s' h
    unfold deactivate at h
    split at h
    · rw [Except.error.injEq, Prod.mk.injEq] at h
      rw [← h.2]
      exact same_store_refl s
    · rcases hc : check_state_consistency s now with ⟨e₁, s₁⟩ | s₁
      · simp only [hc] at h
        rw [Except.error.injEq, Prod.mk.injEq] at h
        obtain ⟨-, ⟨t, hs₁⟩⟩ := check_state_consistency_error_cases hc
        rw [← h.2, hs₁]
        exact ⟨rfl, rfl, rfl, rfl, rfl, rfl⟩
      · simp only [hc] at h
        exact absurd h (by simp)
  · intro s obj_id now e s' h
    unfold add_to_background at h
    split at h
    · rw [Except.error.injEq, Prod.mk.injEq] at h
      rw [← h.2]
      exact same_store_refl s
    · exact absurd h (by simp)

/-- A manager tracking an object `"i"` whose state field says `IMMEDIATE`
although it sits in no container, so `activate` rejects the (already
immediate) transition. -/
def detached_immediate_manager : LifecycleManager :=
  { lifecycle_manager_init false with obj_states := [("i", ObjectState.IMMEDIATE)] }

/-- Witness for C5: each atomicity case evaluated on a concrete manager. -/
theorem error_atomicity_spec_witness :
    deactivate (lifecycle_manager_init false) "x" 0 =
      .error (.stateTransition, lifecycle_manager_init false) ∧
    set_memory_pressure (lifecycle_manager_init false) (mkRat 3 2) 0 =
      .error (.valueError, lifecycle_manager_init false) ∧
    same_store detached_immediate_manager detached_immediate_manager ∧
    same_store background_resident_manager background_resident_manager ∧
    same_store (lifecycle_manager_init false) (lifecycle_manager_init false) ∧
    same_store background_resident_manager background_resident_manager := by
  refine ⟨?_, ?_, ?_, ?_, ?_, ?_⟩
  · exact error_atomicity_spec.1 (lifecycle_manager_init false) "x" 0 (by decide)
  · exact error_atomicity_spec.2.1 (lifecycle_manager_init false) (mkRat 3 2) 0 (by decide)
  · exact error_atomicity_spec.2.2.1 detached_immediate_manager "i" 0 0 .stateTransition
      detached_immediate_manager (by decide)
  · exact error_atomicity_spec.2.2.2.1 background_resident_manager "b" 0 .stateTransition
      background_resident_manager (by decide)
  · exact error_atomicity_spec.2.2.2.2.1 (lifecycle_manager_init false) "x" 0
      .stateTransition (lifecycle_manager_init false) (by decide)
  · exact error_atomicity_spec.2.2.2.2.2 background_resident_manager "b" 0 .stateTransition
      background_resident_manager (by decide)

/-- C6: on a consistent manager, `mark_inactive` demotes exactly one level —
an object resident in Immediate (state `IMMEDIATE`) moves to Active and one
resident in Active (state `ACTIVE`) moves to Background, the transition being
validated first in both cases; an object resident in Background raises a
transition error; and an object in none of the three containers is a no-op
changing nothing but the consistency checker's rate-limit stamp. -/
theorem mark_inactive_spec (s : LifecycleManager) (obj_id : String) (now : ℚ)
    (hwf : tiers_wf s) :
    (obj_id ∈ s.immediate_context → obj_state s obj_id = ObjectState.IMMEDIATE →
      ∃ t, mark_inactive s obj_id now = .ok { s with
        last_state_check := t,
        immediate_context := s.immediate_context.erase obj_id,
        active_cache := od_insert s.active_cache obj_id,
        obj_states := dict_set s.obj_states obj_id ObjectState.ACTIVE,
        tier_transitions := s.tier_transitions + 1,
        last_accessed := dict_set s.last_accessed obj_id now }) ∧
    (obj_id ∉ s.immediate_context → obj_id ∈ s.active_cache →
      obj_state s obj_id = ObjectState.ACTIVE →
      ∃ t, mark_inactive s obj_id now = .ok { s with
        last_state_check := t,
        active_cache := s.active_cache.erase obj_id,
        background_context := od_insert s.background_context obj_id,
        obj_states := dict_set s.obj_states obj_id ObjectState.BACKGROUND,
        tier_transitions := s.tier_transitions + 1,
        last_accessed := dict_set s.last_accessed obj_id now }) ∧
    (obj_id ∉ s.immediate_context → obj_id ∉ s.active_cache →
      obj_id ∈ s.background_context →
      ∃ t, mark_inactive s obj_id now =
        .error (.stateTransition, { s with last_state_check := t })) ∧
    (obj_id ∉ s.immediate_context → obj_id ∉ s.active_cache →
      obj_id ∉ s.background_context →
      ∃ t, mark_inactive s obj_id now = .ok { s with last_state_check := t }) := by
  obtain ⟨t, hc⟩ := check_state_consistency_ok_of_wf now hwf
  refine ⟨?_, ?_, ?_, ?_⟩
  · intro h1 h2
    refine ⟨t, ?_⟩
    have hv : valid_transition (obj_state s obj_id) ObjectState.ACTIVE = true := by
      rw [h2]
      decide
    unfold mark_inactive
    simp only [hc]
    rw [if_pos h1]
    split
    · rfl
    · rename_i hx
      exact absurd hv hx
  · intro h1 h2 h3
    refine ⟨t, ?_⟩
    have hv : valid_transition (obj_state s obj_id) ObjectState.BACKGROUND = true := by
      rw [h3]
      decide
    unfold mark_inactive
    simp only [hc]
    rw [if_neg h1, if_pos h2]
    split
    · rfl
    · rename_i hx
      exact absurd hv hx
  · intro h1 h2 h3
    refine ⟨t, ?_⟩
    unfold mark_inactive
    simp only [hc]
    rw [if_neg h1, if_neg h2, if_pos h3]
  · intro h1 h2 h3
    refine ⟨t, ?_⟩
    unfold mark_inactive
    simp only [hc]
    rw [if_neg h1, if_neg h2, if_neg h3]

/-- Witness for C6: the four cases evaluated on concrete managers. -/
theorem mark_inactive_spec_witness :
    (∃ t, mark_inactive imm_resident_manager "i" 9 = .ok { imm_resident_manager with
      last_state_check := t,
      immediate_context := [],
      active_cache := ["i"],
      obj_states := [("i", ObjectState.ACTIVE)],
      tier_transitions := 1,
      last_accessed := [("i", 9)] }) ∧
    (∃ t, mark_inactive active_resident_manager "a" 9 = .ok { active_resident_manager with
      last_state_check := t,
      active_cache := [],
      background_context := ["a"],
      obj_states := [("a", ObjectState.BACKGROUND)],
      tier_transitions := 1,
      last_accessed := [("a", 9)] }) ∧
    (∃ t, mark_inactive background_resident_manager "b" 9 =
      .error (.stateTransition, { background_resident_manager with last_state_check := t })) ∧
    (∃ t, mark_inactive (lifecycle_manager_init false) "z" 9 =
      .ok { lifecycle_manager_init false with last_state_check := t }) :=
  ⟨(mark_inactive_spec imm_resident_manager "i" 9 (by decide)).1 (by decide) (by decide),
    (mark_inactive_spec active_resident_manager "a" 9 (by decide)).2.1 (by decide)
      (by decide) (by decide),
    (mark_inactive_spec background_resident_manager "b" 9 (by decide)).2.2.1 (by decide)
      (by decide) (by decide),
    (mark_inactive_spec (lifecycle_manager_init false) "z" 9 (by decide)).2.2.2 (by decide)
      (by decide) (by decide)⟩

theorem find_demotion_candidate_none_max {priorities : List (String × Int)}
    {last_accessed : List (String × ℚ)} {now : ℚ} {ctx : List String} {c : String}
    (h : find_demotion_candidate priorities last_accessed now ctx none = some c) :
    ∀ x ∈ ctx, score_of priorities last_accessed now x ≤
      score_of priorities last_accessed now c := by
  intro x hx
  unfold find_demotion_candidate at h
  rw [List.find?_eq_none.mpr (fun y _ => by simp [threshold_hit])] at h
  rcases hctx : ctx with _ | ⟨x₀, rest⟩
  · subst hctx
    simp at hx
  · subst hctx
    simp only [List.map_cons, Option.some.injEq] at h
    have hmem := py_max_mem (x₀, score_of priorities last_accessed now x₀)
      (rest.map (fun obj_id => (obj_id, score_of priorities last_accessed now obj_id)))
    have hsnd : (py_max (x₀, score_of priorities last_accessed now x₀)
        (rest.map (fun obj_id => (obj_id, score_of priorities last_accessed now obj_id)))).2 =
        score_of priorities last_accessed now c := by
      rcases List.mem_cons.mp hmem with heq | hmem'
      · have hc0 : x₀ = c := by
          rw [← h, heq]
        rw [heq, hc0]
      · obtain ⟨y, hy, hfy⟩ := List.mem_map.mp hmem'
        have hyc : y = c := by
          rw [← h, ← hfy]
        rw [← hfy, hyc]
    have hxmem : (x, score_of priorities last_accessed now x) ∈
        (x₀, score_of priorities last_accessed now x₀) ::
          rest.map (fun obj_id => (obj_id, score_of priorities last_accessed now obj_id)) := by
      rcases List.mem_cons.mp hx with rfl | hx'
      · exact List.mem_cons_self _ _
      · exact List.mem_cons_of_mem _
          (List.mem_map_of_mem (fun obj_id =>
            (obj_id, score_of priorities last_accessed now obj_id)) hx')
    have hle := py_max_le (x₀, score_of priorities last_accessed now x₀)
      (rest.map (fun obj_id => (obj_id, score_of priorities last_accessed now obj_id)))
      (x, score_of priorities last_accessed now x) hxmem
    rw [hsnd] at hle
    exact hle

/-- Counterexample for C7: two objects of equal age (both last accessed at the
current instant, so age 0) with priorities 5 and 0 both score 0; the selector
keeps the first maximal-scoring member in container order and therefore
returns the priority-5 object `"b"` although the priority-0 object `"a"` is
also a candidate. -/
theorem demotion_selector_tie_counterexample :
    rat_sub 100 ((dict_get [("b", (100 : ℚ)), ("a", 100)] "b").getD 0) =
      rat_sub 100 ((dict_get [("b", (100 : ℚ)), ("a", 100)] "a").getD 0) ∧
    (dict_get [("b", (5 : Int)), ("a", 0)] "b").getD 0 = 5 ∧
    (dict_get [("b", (5 : Int)), ("a", 0)] "a").getD 0 = 0 ∧
    find_demotion_candidate [("b", 5), ("a", 0)] [("b", 100), ("a", 100)] 100
      ["b", "a"] none = some "b" := by
  decide

/-- C7 (amended): in a tier containing a priority-0 object and a priority-5
object of equal and strictly positive age (and with no age threshold
supplied), the demotion selector never returns the priority-5 object: scores
are `age × 1/(priority+1)`, so the priority-0 object strictly outscores it
and the maximum-scoring member is returned.  An empty tier yields no
candidate.  (The positivity requirement is forced by the counterexample: at
age exactly 0 all scores tie and container order decides.) -/
theorem demotion_selector_priority_spec (priorities : List (String × Int))
    (last_accessed : List (String × ℚ)) (now : ℚ) (ctx : List String)
    (id0 id5 : String) (la : ℚ)
    (h0 : id0 ∈ ctx)
    (hp0 : (dict_get priorities id0).getD 0 = 0)
    (hp5 : (dict_get priorities id5).getD 0 = 5)
    (hla0 : (dict_get last_accessed id0).getD 0 = la)
    (hla5 : (dict_get last_accessed id5).getD 0 = la)
    (hage : 0 < now - la) :
    find_demotion_candidate priorities last_accessed now ctx none ≠ some id5 ∧
    ∀ thr, find_demotion_candidate priorities last_accessed now [] thr = none := by
  constructor
  · intro hcontra
    have hmax := find_demotion_candidate_none_max hcontra id0 h0
    have hs0 : score_of priorities last_accessed now id0 = now - la := by
      unfold score_of
      dsimp only
      rw [hp0, hla0, show rat_inv (rat_add (ratZ 0) 1) = 1 from by decide,
        rat_mul_eq, rat_sub_eq, mul_one]
    have hs5 : score_of priorities last_accessed now id5 = (now - la) * (6 : ℚ)⁻¹ := by
      unfold score_of
      dsimp only
      rw [hp5, hla5, show rat_inv (rat_add (ratZ 5) 1) = (6 : ℚ)⁻¹ from by
        rw [show rat_add (ratZ 5) 1 = (6 : ℚ) from by decide, rat_inv_eq],
        rat_mul_eq, rat_sub_eq]
    rw [hs0, hs5] at hmax
    have h6 : (now - la) * (6 : ℚ)⁻¹ < now - la := by
      rw [← div_eq_mul_inv]
      exact div_lt_self hage (by norm_num)
    linarith
  · intro thr
    rfl

/-- Witness for C7 (amended): with equal positive ages (last access 40 at
time 100) the selector avoids the priority-5 object even though it comes
first in container order, and an empty tier yields no candidate. -/
theorem demotion_selector_priority_spec_witness :
    find_demotion_candidate [("b", 5), ("a", 0)] [("b", 40), ("a", 40)] 100
      ["b", "a"] none ≠ some "b" ∧
    find_demotion_candidate [("b", 5), ("a", 0)] [("b", 40), ("a", 40)] 100
      [] (some 3) = none :=
  ⟨(demotion_selector_priority_spec [("b", 5), ("a", 0)] [("b", 40), ("a", 40)] 100
      ["b", "a"] "a" "b" 40 (by decide) (by decide) (by decide) (by decide) (by decide)
      (by norm_num)).1,
    (demotion_selector_priority_spec [("b", 5), ("a", 0)] [("b", 40), ("a", 40)] 100
      ["b", "a"] "a" "b" 40 (by decide) (by decide) (by decide) (by decide) (by decide)
      (by norm_num)).2 (some 3)⟩

theorem rebalance_all_tiers_limits (s : LifecycleManager) (now : ℚ) :
    (rebalance_all_tiers s now).immediate_limit = s.immediate_limit ∧
    (rebalance_all_tiers s now).active_limit = s.active_limit ∧
    (rebalance_all_tiers s now).background_limit = s.background_limit := by
  unfold rebalance_all_tiers
  dsimp only
  set s₁ := rebalance_immediate_loop now s.immediate_context.length s with hs₁
  set s₂ := rebalance_active_loop now s₁.active_cache.length s₁ with hs₂
  set s₃ := stale_sweep now s₂ with hs₃
  have f1 := rebalance_immediate_loop_frame now s.immediate_context.length s
  have f2 := rebalance_active_loop_frame now s₁.active_cache.length s₁
  have f3 := stale_sweep_frame now s₂
  have f4 := rebalance_background_loop_frame now s₃.background_context.length s₃
  exact ⟨(f4.2.2.1.trans f3.2.1).trans (f2.2.1.trans f1.1),
    (f4.2.2.2.1.trans f3.2.2.1).trans (f2.2.2.1.trans f1.2.1),
    (f4.2.2.2.2.trans f3.2.2.2.1).trans (f2.2.2.2.trans f1.2.2)⟩

/-- Counterexample for C3: at pressure 0.95 the background limit becomes
`max(40, int(500 × 0.1)) = 50` — the `int(...)` term beats the documented
extreme-pressure floor of 40, so the limits are 4/20/50, not 4/20/40. -/
theorem extreme_pressure_floor_counterexample :
    (result_state (set_memory_pressure (lifecycle_manager_init false)
      (mkRat 19 20) 0)).background_limit = 50 ∧
    ¬ (result_state (set_memory_pressure (lifecycle_manager_init false)
      (mkRat 19 20) 0)).background_limit = 40 := by
  decide

/-- In the normal-pressure regime the source's limit term
`int(base * (pressure_factor + recovery_boost))` equals the floor of the same
expression written with the field operations of `ℚ`. -/
theorem normal_pressure_limit_formula (base : Nat) (p : ℚ) (h0 : 0 ≤ p)
    (h1 : p < mkRat 4 5) :
    py_int (rat_mul (ratN base) (rat_add (rat_sub 1 (rat_mul p (mkRat 3 20)))
      (py_fmax 0 (rat_sub (mkRat 6 5) p)))) =
    ⌊(base : ℚ) * ((1 - p * (3 / 20)) + max 0 (6 / 5 - p))⌋ := by
  have hm3 : (mkRat 3 20 : ℚ) = 3 / 20 := by
    rw [Rat.mkRat_eq_div]
    norm_num
  have hm6 : (mkRat 6 5 : ℚ) = 6 / 5 := by
    rw [Rat.mkRat_eq_div]
    norm_num
  have h45 : p < 4 / 5 := by
    rwa [show (mkRat 4 5 : ℚ) = 4 / 5 from by rw [Rat.mkRat_eq_div]; norm_num] at h1
  simp only [rat_mul_eq, rat_add_eq, rat_sub_eq, py_fmax_eq, ratN_eq, hm3, hm6]
  apply py_int_eq_floor
  have hmax : (0 : ℚ) ≤ max 0 (6 / 5 - p) := le_max_left 0 _
  have hstep : p * (3 / 20) ≤ (4 / 5) * (3 / 20) :=
    mul_le_mul_of_nonneg_right (le_of_lt h45) (by norm_num)
  have hfac : 0 ≤ (1 - p * (3 / 20)) + max 0 (6 / 5 - p) := by
    linarith
  exact mul_nonneg (Nat.cast_nonneg base) hfac

/-- The manager after `set_memory_pressure(0.95)` on a fresh instance. -/
def after_extreme_pressure : LifecycleManager :=
  result_state (set_memory_pressure (lifecycle_manager_init false) (mkRat 19 20) 0)

/-- The manager after a subsequent `set_memory_pressure(0.0)`. -/
def after_recovery : LifecycleManager :=
  result_state (set_memory_pressure after_extreme_pressure 0 0)

/-- C3 (amended): `set_memory_pressure(0.95)` sets the limits to 4/20/50 —
immediate and active land on their extreme-pressure floors 4 and 20, while
the background limit is `int(500 × 0.1) = 50`, above its floor 40; a
subsequent `set_memory_pressure(0.0)` recovers the limits to 66/440/1100
(`int(base × 2.2)`); and for every pressure below 0.8 each limit equals
`max(floor, ⌊base × (pressure factor + recovery boost)⌋)` with factors
`1 − 0.15p` and `max(0, 1.2 − p)`, hence is at least the normal-pressure
floors 20/60/120. -/
theorem set_memory_pressure_limits_spec :
    (after_extreme_pressure.immediate_limit = 4 ∧
      after_extreme_pressure.active_limit = 20 ∧
      after_extreme_pressure.background_limit = 50) ∧
    (after_recovery.immediate_limit = 66 ∧
      after_recovery.active_limit = 440 ∧
      after_recovery.background_limit = 1100) ∧
    (∀ (s : LifecycleManager) (p now : ℚ), 0 ≤ p → p < mkRat 4 5 →
      ∃ s', set_memory_pressure s p now = .ok s' ∧
        s'.immediate_limit = Nat.max 20
          (⌊(s.base_immediate_limit : ℚ) * ((1 - p * (3 / 20)) + max 0 (6 / 5 - p))⌋).toNat ∧
        s'.active_limit = Nat.max 60
          (⌊(s.base_active_limit : ℚ) * ((1 - p * (3 / 20)) + max 0 (6 / 5 - p))⌋).toNat ∧
        s'.background_limit = Nat.max 120
          (⌊(s.base_background_limit : ℚ) * ((1 - p * (3 / 20)) + max 0 (6 / 5 - p))⌋).toNat ∧
        20 ≤ s'.immediate_limit ∧ 60 ≤ s'.active_limit ∧ 120 ≤ s'.background_limit) := by
  refine ⟨by decide, by decide, ?_⟩
  intro s p now h0 h1
  have hp1 : p ≤ 1 := le_trans (le_of_lt h1) (by decide)
  have h9 : ¬ (p ≥ mkRat 9 10) := fun hge =>
    absurd h1 (not_lt.mpr (le_trans (by decide : (mkRat 4 5 : ℚ) ≤ mkRat 9 10) hge))
  have h8 : ¬ (p ≥ mkRat 4 5) := not_le.mpr h1
  unfold set_memory_pressure
  rw [if_neg (not_not_intro ⟨h0, hp1⟩)]
  dsimp only
  rw [if_neg h9, if_neg h8]
  refine ⟨_, rfl, ?_, ?_, ?_, ?_, ?_, ?_⟩
  · rw [(rebalance_all_tiers_limits _ now).1]
    show Nat.max 20 (py_int (rat_mul (ratN s.base_immediate_limit)
      (rat_add (rat_sub 1 (rat_mul p (mkRat 3 20))) (py_fmax 0 (rat_sub (mkRat 6 5) p))))).toNat = _
    rw [normal_pressure_limit_formula s.base_immediate_limit p h0 h1]
  · rw [(rebalance_all_tiers_limits _ now).2.1]
    show Nat.max 60 (py_int (rat_mul (ratN s.base_active_limit)
      (rat_add (rat_sub 1 (rat_mul p (mkRat 3 20))) (py_fmax 0 (rat_sub (mkRat 6 5) p))))).toNat = _
    rw [normal_pressure_limit_formula s.base_active_limit p h0 h1]
  · rw [(rebalance_all_tiers_limits _ now).2.2]
    show Nat.max 120 (py_int (rat_mul (ratN s.base_background_limit)
      (rat_add (rat_sub 1 (rat_mul p (mkRat 3 20))) (py_fmax 0 (rat_sub (mkRat 6 5) p))))).toNat = _
    rw [normal_pressure_limit_formula s.base_background_limit p h0 h1]
  · rw [(rebalance_all_tiers_limits _ now).1]
    exact Nat.le_max_left 20 _
  · rw [(rebalance_all_tiers_limits _ now).2.1]
    exact Nat.le_max_left 60 _
  · rw [(rebalance_all_tiers_limits _ now).2.2]
    exact Nat.le_max_left 120 _

/-- Witness for C3 (amended): the normal-pressure branch applied at
pressure one half on a fresh manager. -/
theorem set_memory_pressure_limits_spec_witness :
    ∃ s', set_memory_pressure (lifecycle_manager_init false) (mkRat 1 2) 0 = .ok s' ∧
      s'.immediate_limit = Nat.max 20
        (⌊((lifecycle_manager_init false).base_immediate_limit : ℚ) *
          ((1 - mkRat 1 2 * (3 / 20)) + max 0 (6 / 5 - mkRat 1 2))⌋).toNat ∧
      s'.active_limit = Nat.max 60
        (⌊((lifecycle_manager_init false).base_active_limit : ℚ) *
          ((1 - mkRat 1 2 * (3 / 20)) + max 0 (6 / 5 - mkRat 1 2))⌋).toNat ∧
      s'.background_limit = Nat.max 120
        (⌊((lifecycle_manager_init false).base_background_limit : ℚ) *
          ((1 - mkRat 1 2 * (3 / 20)) + max 0 (6 / 5 - mkRat 1 2))⌋).toNat ∧
      20 ≤ s'.immediate_limit ∧ 60 ≤ s'.active_limit ∧ 120 ≤ s'.background_limit :=
  set_memory_pressure_limits_spec.2.2 (lifecycle_manager_init false) (mkRat 1 2) 0
    (by decide) (by decide)
